import Mathlib

/-!
# Verification of the WebXR layers polyfill core

A shallow embedding, in Lean, of the layer-compositing core of the
webxr-layers-polyfill: layer layouts and texture kinds, the viewport
initialization routine, deferred layout resolution, color and depth-stencil
texture allocation, the sub-image resolver with its per-binding cache, the
media binding's aspect-ratio derivation, the cube-layer constructor and the
session's deferred-task queue.

JavaScript numbers are modelled as rationals (`ℚ`); every arithmetic step the
embedded code performs (halving, doubling, division by a view count) is exact
in binary floating point for the magnitudes involved, so the rational model
agrees with the source.  JavaScript object identity is modelled with explicit
numeric ids (`sid` for sub-images, `texture` ids for GL textures, `lid` for
layers, `vid` for views) drawn from counters threaded through the state.
`undefined` fields are modelled with `Option`; a thrown `TypeError` or `Error`
is an `Except`-style error value carried next to the mutated state, because
the source mutates objects before some of its throw sites.
-/

namespace WebXRLayers

/-- Layer layouts, from `XRLayerLayout` in `types.ts`. -/
inductive XRLayerLayout where
  | default
  | mono
  | stereo
  | stereoLeftRight
  | stereoTopBottom
deriving DecidableEq, Repr

/-- Texture kinds, from `XRTextureType` in `types.ts`. -/
inductive XRTextureType where
  | texture
  | textureArray
deriving DecidableEq, Repr

/-- Eyes, from the WebXR `XREye` enum (`"none" | "left" | "right"`). -/
inductive XREye where
  | none
  | left
  | right
deriving DecidableEq, Repr

/-- A thrown JavaScript exception: either a `TypeError` or a plain `Error`
with its message. -/
inductive JSError where
  | typeError (msg : String)
  | error (msg : String)
deriving DecidableEq, Repr

/-- The capabilities of the WebGL context the polyfill received: whether it is
a `WebGL2RenderingContext`, and whether the `WEBGL_depth_texture` extension is
available when it is WebGL 1. -/
structure GLContext where
  isWebGL2 : Bool
  hasDepthTextureExtension : Bool
deriving DecidableEq, Repr

def GL_DEPTH_COMPONENT : Nat := 0x1902
def GL_DEPTH_STENCIL : Nat := 0x84F9
def GL_DEPTH_COMPONENT24 : Nat := 0x81A6
def GL_DEPTH24_STENCIL8 : Nat := 0x88F0
def GL_RGBA : Nat := 0x1908

/-- `PolyfillTexture` from `types.ts`: a GL texture object (its id) together
with the metadata the polyfill stores for later viewport math. -/
structure PolyfillTexture where
  texture : Nat
  textureFormat : Nat
  width : ℚ
  height : ℚ
  layers : Nat
  type : XRTextureType
deriving DecidableEq, Repr

/-- A mutable viewport record (`XRViewportPolyfill` from `types.ts`). -/
structure Viewport where
  x : ℚ
  y : ℚ
  width : ℚ
  height : ℚ
deriving DecidableEq, Repr

/-- `initializeViewport` from `utils/initialize-viewport.ts`.  The source
mutates all four fields of the passed viewport, so it is embedded as a
function returning the viewport. -/
def initializeViewport (texture : PolyfillTexture) (layout : XRLayerLayout)
    (offset : ℚ) (numViews : ℚ) : Viewport :=
  if layout = XRLayerLayout.stereoLeftRight then
    { x := texture.width * offset / numViews
      y := 0
      width := texture.width / numViews
      height := texture.height }
  else if layout = XRLayerLayout.stereoTopBottom then
    { x := 0
      y := texture.height * offset / numViews
      width := texture.width
      height := texture.height / numViews }
  else
    { x := 0, y := 0, width := texture.width, height := texture.height }

/-- `XRCompositionLayerPolyfill.determineLayoutAttribute`.  `viewCount` is the
length of `session.internalViews` (the source's `internalViews` is always an
array, so only the `length === 1` comparison is observable). -/
def determineLayoutAttribute (textureType : XRTextureType) (context : GLContext)
    (viewCount : Nat) (layout : XRLayerLayout) : Except JSError XRLayerLayout :=
  if ¬context.isWebGL2 ∧ textureType = XRTextureType.textureArray then
    Except.error (JSError.typeError "")
  else if layout = XRLayerLayout.mono then
    Except.ok layout
  else if layout = XRLayerLayout.default ∧ viewCount = 1 then
    Except.ok XRLayerLayout.mono
  else if layout = XRLayerLayout.default ∧ textureType = XRTextureType.textureArray then
    Except.ok layout
  else if layout = XRLayerLayout.default ∨ layout = XRLayerLayout.stereo then
    Except.ok XRLayerLayout.stereoLeftRight
  else
    Except.ok layout

/-- Layer kinds (the concrete subclasses of `XRCompositionLayerPolyfill`). -/
inductive LayerKind where
  | projection
  | quad
  | cylinder
  | equirect
  | cube
deriving DecidableEq, Repr

/-- The state of one composition layer: the fields of
`XRCompositionLayerPolyfill` (and its subclasses) that the embedded
operations read or write, plus the `init` parameters they consult.
`needsRedraw` is an `Option Bool` because the source leaves it `undefined`
until deferred initialization runs, and `undefined === false` is false.
`depthFormat = 0` encodes an absent (`undefined` or `0`) depth format, the two
cases the source's falsiness/`=== 0` checks treat alike on the embedded
paths. An empty `depthStencilTextures` doubles for the source's `undefined`;
the two are indistinguishable to the embedded accessors. -/
structure LayerData where
  lid : Nat
  kind : LayerKind
  isMedia : Bool
  layout : XRLayerLayout
  textureType : XRTextureType
  isStatic : Bool
  needsRedraw : Option Bool
  hasRunDeferredInitialize : Bool
  viewPixelWidth : ℚ
  viewPixelHeight : ℚ
  colorFormat : Nat
  depthFormat : Nat
  mipLevels : Int
  scaleFactor : ℚ
  colorTextures : List Nat
  texturesMeta : List PolyfillTexture
  depthStencilTextures : List Nat
  sessionId : Nat
  contextId : Nat
deriving DecidableEq, Repr

/-- `_createGenericPolyfillTexture`: creates one GL texture (consuming the
texture-id counter) and its metadata; throws when a texture array is requested
on a WebGL 1 context. -/
def createGenericPolyfillTexture (ctx : GLContext) (textureType : XRTextureType)
    (width height : ℚ) (textureFormat : Nat) (numLayers : Nat) (texId : Nat) :
    Except JSError (PolyfillTexture × Nat) :=
  if textureType = XRTextureType.textureArray ∧ ¬ctx.isWebGL2 then
    Except.error (JSError.error "WebGL 1 does not support texture array")
  else
    Except.ok
      ({ texture := texId, textureFormat := textureFormat, width := width,
         height := height, layers := numLayers, type := textureType }, texId + 1)

/-- `initializeIfNeeded` together with the `_deferredInitialize` shared by the
quad, cylinder and equirect layers: resolve the layout attribute and set
`needsRedraw` to true.  The source sets `_hasRunDeferredInitialize` before
invoking `_deferredInitialize`, so the flag survives a thrown resolution
error; the error is returned next to the partially updated layer. -/
def initializeIfNeeded (ctx : GLContext) (viewCount : Nat) (layer : LayerData) :
    LayerData × Option JSError :=
  if layer.hasRunDeferredInitialize then (layer, Option.none)
  else
    let layer := { layer with hasRunDeferredInitialize := true }
    match determineLayoutAttribute layer.textureType ctx viewCount layer.layout with
    | Except.error e => (layer, some e)
    | Except.ok layout =>
        ({ layer with layout := layout, needsRedraw := some true }, Option.none)

/-- `XRCompositionLayerPolyfill._allocateColorTexturesInternal`.  The two
mono sub-branches of the source produce the same single texture (the array
variant also passes the default single layer), so they are written once. -/
def allocateColorTexturesInternal (ctx : GLContext) (viewCount : Nat)
    (layer : LayerData) (texId : Nat) : (LayerData × Nat) × Option JSError :=
  if viewCount = 0 then
    -- "We can't allocate color textures without views"
    ((layer, texId), Option.none)
  else
    match initializeIfNeeded ctx viewCount layer with
    | (layer, some e) => ((layer, texId), some e)
    | (layer, Option.none) =>
      if layer.layout = XRLayerLayout.mono then
        match createGenericPolyfillTexture ctx layer.textureType layer.viewPixelWidth
            layer.viewPixelHeight layer.colorFormat 1 texId with
        | Except.error e => ((layer, texId), some e)
        | Except.ok (t, texId) =>
            (({ layer with texturesMeta := [t], colorTextures := [t.texture] }, texId),
             Option.none)
      else if layer.layout = XRLayerLayout.stereo then
        if layer.textureType = XRTextureType.textureArray then
          match createGenericPolyfillTexture ctx layer.textureType layer.viewPixelWidth
              layer.viewPixelHeight layer.colorFormat 2 texId with
          | Except.error e => ((layer, texId), some e)
          | Except.ok (t, texId) =>
              (({ layer with texturesMeta := [t], colorTextures := [t.texture] }, texId),
               Option.none)
        else
          match createGenericPolyfillTexture ctx layer.textureType layer.viewPixelWidth
              layer.viewPixelHeight layer.colorFormat 1 texId with
          | Except.error e => ((layer, texId), some e)
          | Except.ok (t1, texId) =>
            match createGenericPolyfillTexture ctx layer.textureType layer.viewPixelWidth
                layer.viewPixelHeight layer.colorFormat 1 texId with
            | Except.error e => ((layer, texId), some e)
            | Except.ok (t2, texId) =>
                (({ layer with texturesMeta := [t1, t2]
                               colorTextures := [t1.texture, t2.texture] }, texId),
                 Option.none)
      else if layer.layout = XRLayerLayout.stereoLeftRight then
        match createGenericPolyfillTexture ctx layer.textureType
            (layer.viewPixelWidth * 2) layer.viewPixelHeight layer.colorFormat 1 texId with
        | Except.error e => ((layer, texId), some e)
        | Except.ok (t, texId) =>
            (({ layer with texturesMeta := [t], colorTextures := [t.texture] }, texId),
             Option.none)
      else if layer.layout = XRLayerLayout.stereoTopBottom then
        match createGenericPolyfillTexture ctx layer.textureType layer.viewPixelWidth
            (layer.viewPixelHeight * 2) layer.colorFormat 1 texId with
        | Except.error e => ((layer, texId), some e)
        | Except.ok (t, texId) =>
            (({ layer with texturesMeta := [t], colorTextures := [t.texture] }, texId),
             Option.none)
      else
        -- layout "default" (texture-array kind): no branch of the source fires
        ((layer, texId), Option.none)

/-- `_getSupportedDepthFormats`: empty on WebGL 1 without the
`WEBGL_depth_texture` extension; the two WebGL 2-only formats are appended on
WebGL 2. -/
def supportedDepthFormats (ctx : GLContext) : List Nat :=
  if ¬ctx.isWebGL2 ∧ ¬ctx.hasDepthTextureExtension then []
  else
    [GL_DEPTH_COMPONENT, GL_DEPTH_STENCIL] ++
      (if ctx.isWebGL2 then [GL_DEPTH_COMPONENT24, GL_DEPTH24_STENCIL8] else [])

/-- `XRCompositionLayerPolyfill._allocateDepthStencilTexturesInternal` (the
strict, non-projection variant). -/
def allocateDepthStencilTexturesInternal (ctx : GLContext) (layer : LayerData)
    (texId : Nat) : (LayerData × Nat) × Option JSError :=
  if layer.depthFormat = 0 then
    (({ layer with depthStencilTextures := [] }, texId), Option.none)
  else if ¬(layer.depthFormat ∈ supportedDepthFormats ctx) then
    ((layer, texId),
     some (JSError.error "Depth format provided is not supported in non-projection layers."))
  else if layer.mipLevels < 1 then
    ((layer, texId), some (JSError.error "Invalid miplevel. Miplevel needs to be >= 1"))
  else if layer.layout = XRLayerLayout.mono then
    match createGenericPolyfillTexture ctx layer.textureType layer.viewPixelWidth
        layer.viewPixelHeight layer.depthFormat 1 texId with
    | Except.error e => ((layer, texId), some e)
    | Except.ok (t, texId) =>
        (({ layer with depthStencilTextures := [t.texture] }, texId), Option.none)
  else if layer.layout = XRLayerLayout.stereo then
    if layer.textureType = XRTextureType.textureArray then
      match createGenericPolyfillTexture ctx layer.textureType layer.viewPixelWidth
          layer.viewPixelHeight layer.depthFormat 2 texId with
      | Except.error e => ((layer, texId), some e)
      | Except.ok (t, texId) =>
          (({ layer with depthStencilTextures := [t.texture] }, texId), Option.none)
    else
      match createGenericPolyfillTexture ctx layer.textureType layer.viewPixelWidth
          layer.viewPixelHeight layer.depthFormat 1 texId with
      | Except.error e => ((layer, texId), some e)
      | Except.ok (t1, texId) =>
        match createGenericPolyfillTexture ctx layer.textureType layer.viewPixelWidth
            layer.viewPixelHeight layer.depthFormat 1 texId with
        | Except.error e => ((layer, texId), some e)
        | Except.ok (t2, texId) =>
            (({ layer with depthStencilTextures := [t1.texture, t2.texture] }, texId),
             Option.none)
  else if layer.layout = XRLayerLayout.stereoLeftRight then
    match createGenericPolyfillTexture ctx layer.textureType
        (layer.viewPixelWidth * 2) layer.viewPixelHeight layer.depthFormat 1 texId with
    | Except.error e => ((layer, texId), some e)
    | Except.ok (t, texId) =>
        (({ layer with depthStencilTextures := [t.texture] }, texId), Option.none)
  else if layer.layout = XRLayerLayout.stereoTopBottom then
    match createGenericPolyfillTexture ctx layer.textureType layer.viewPixelWidth
        (layer.viewPixelHeight * 2) layer.depthFormat 1 texId with
    | Except.error e => ((layer, texId), some e)
    | Except.ok (t, texId) =>
        (({ layer with depthStencilTextures := [t.texture] }, texId), Option.none)
  else
    ((layer, texId), Option.none)

/-- Creates `n` equally-sized textures, one per view, as the per-view loop of
`XRProjectionLayer._allocateProjectionColorTextures` does. -/
def createTexturesPerView (ctx : GLContext) (n : Nat) (width height : ℚ)
    (textureFormat : Nat) (texId : Nat) : List PolyfillTexture × Nat :=
  match n with
  | 0 => ([], texId)
  | Nat.succ m =>
    let t : PolyfillTexture :=
      { texture := texId, textureFormat := textureFormat, width := width,
        height := height, layers := 1, type := XRTextureType.texture }
    let (ts, texId) := createTexturesPerView ctx m width height textureFormat (texId + 1)
    (t :: ts, texId)

/-- `XRProjectionLayer._allocateProjectionColorTextures`.  `baseWidth` and
`baseHeight` are the base layer's framebuffer dimensions. -/
def allocateProjectionColorTextures (ctx : GLContext) (viewCount : Nat)
    (baseWidth baseHeight : ℚ) (layer : LayerData) (texId : Nat) :
    (LayerData × Nat) × Option JSError :=
  if viewCount = 0 then
    ((layer, texId), Option.none)
  else
    let width := baseWidth * layer.scaleFactor / (viewCount : ℚ)
    let height := baseHeight * layer.scaleFactor
    if layer.layout = XRLayerLayout.mono ∨ layer.layout = XRLayerLayout.default then
      if layer.textureType = XRTextureType.textureArray then
        match createGenericPolyfillTexture ctx XRTextureType.textureArray width height
            layer.colorFormat viewCount texId with
        | Except.error e => ((layer, texId), some e)
        | Except.ok (t, texId) =>
            (({ layer with texturesMeta := [t], colorTextures := [t.texture] }, texId),
             Option.none)
      else
        let (ts, texId) := createTexturesPerView ctx viewCount width height
          layer.colorFormat texId
        (({ layer with texturesMeta := ts,
                       colorTextures := ts.map PolyfillTexture.texture }, texId),
         Option.none)
    else if layer.layout = XRLayerLayout.stereoLeftRight then
      match createGenericPolyfillTexture ctx layer.textureType (width * (viewCount : ℚ))
          height layer.colorFormat 1 texId with
      | Except.error e => ((layer, texId), some e)
      | Except.ok (t, texId) =>
          (({ layer with texturesMeta := [t], colorTextures := [t.texture] }, texId),
           Option.none)
    else if layer.layout = XRLayerLayout.stereoTopBottom then
      match createGenericPolyfillTexture ctx layer.textureType width
          (height * (viewCount : ℚ)) layer.colorFormat 1 texId with
      | Except.error e => ((layer, texId), some e)
      | Except.ok (t, texId) =>
          (({ layer with texturesMeta := [t], colorTextures := [t.texture] }, texId),
           Option.none)
    else
      -- layout "stereo": the source's tail assigns the (still empty) arrays
      (({ layer with texturesMeta := [], colorTextures := [] }, texId), Option.none)

/-- `XRProjectionLayer._allocateProjectionDepthStencilTextures`: the lenient,
projection-only variant.  On WebGL 1 without the `WEBGL_depth_texture`
extension it silently produces no depth textures instead of throwing. -/
def allocateProjectionDepthStencilTextures (ctx : GLContext) (viewCount : Nat)
    (baseWidth baseHeight : ℚ) (layer : LayerData) (texId : Nat) :
    (LayerData × Nat) × Option JSError :=
  if viewCount = 0 then
    ((layer, texId), Option.none)
  else if layer.depthFormat = 0 then
    (({ layer with depthStencilTextures := [] }, texId), Option.none)
  else if ¬ctx.isWebGL2 ∧ ¬ctx.hasDepthTextureExtension then
    (({ layer with depthStencilTextures := [] }, texId), Option.none)
  else
    let width := baseWidth * layer.scaleFactor / (viewCount : ℚ)
    let height := baseHeight * layer.scaleFactor
    if layer.layout = XRLayerLayout.mono ∨ layer.layout = XRLayerLayout.default then
      if layer.textureType = XRTextureType.textureArray then
        match createGenericPolyfillTexture ctx layer.textureType width height
            layer.depthFormat viewCount texId with
        | Except.error e => ((layer, texId), some e)
        | Except.ok (t, texId) =>
            (({ layer with depthStencilTextures := [t.texture] }, texId), Option.none)
      else
        let (ts, texId) := createTexturesPerView ctx viewCount width height
          layer.depthFormat texId
        (({ layer with depthStencilTextures := ts.map PolyfillTexture.texture }, texId),
         Option.none)
    else if layer.layout = XRLayerLayout.stereoLeftRight then
      match createGenericPolyfillTexture ctx layer.textureType (width * (viewCount : ℚ))
          height layer.depthFormat 1 texId with
      | Except.error e => ((layer, texId), some e)
      | Except.ok (t, texId) =>
          (({ layer with depthStencilTextures := [t.texture] }, texId), Option.none)
    else if layer.layout = XRLayerLayout.stereoTopBottom then
      match createGenericPolyfillTexture ctx layer.textureType width
          (height * (viewCount : ℚ)) layer.depthFormat 1 texId with
      | Except.error e => ((layer, texId), some e)
      | Except.ok (t, texId) =>
          (({ layer with depthStencilTextures := [t.texture] }, texId), Option.none)
    else
      (({ layer with depthStencilTextures := [] }, texId), Option.none)

/-- One entry of the session's view list.  `vid` models the view object's
JavaScript identity (views are `Map` keys in the view-sub-image cache);
`getViewIndex` compares the `eye` and `recommendedViewportScale` fields. -/
structure XRView where
  vid : Nat
  eye : XREye
  recommendedViewportScale : Option ℚ
deriving DecidableEq, Repr

/-- `XRSessionWithLayer.getViewIndex`: offset of the first matching view in
the session's view list, `-1` if absent. -/
def getViewIndex (views : List XRView) (view : XRView) : Int :=
  match views.findIdx? (fun testView =>
      decide (view.eye = testView.eye ∧
        view.recommendedViewportScale = testView.recommendedViewportScale)) with
  | some i => (i : Int)
  | Option.none => -1

/-- The session-shim state the embedded operations touch: the view list
(captured on the first posed frame), the base layer's framebuffer size, and
the deferred task queue.  A queued task is recorded as the id of the layer
whose `needsRedraw` it will clear. -/
structure SessionState where
  sessionId : Nat
  views : List XRView
  baseWidth : ℚ
  baseHeight : ℚ
  taskQueue : List Nat
deriving DecidableEq, Repr

/-- `XRWebGLSubImagePolyfill`: the constructor zero-initializes the viewport
and leaves every other field `undefined`. `sid` models object identity. -/
structure SubImage where
  sid : Nat
  imageIndex : Option Int
  colorTexture : Option Nat
  depthStencilTexture : Option Nat
  textureWidth : Option ℚ
  textureHeight : Option ℚ
  viewport : Viewport
deriving DecidableEq, Repr

/-- `new XRWebGLSubImagePolyfill()`. -/
def newSubImage (sid : Nat) : SubImage :=
  { sid := sid, imageIndex := Option.none, colorTexture := Option.none,
    depthStencilTexture := Option.none, textureWidth := Option.none,
    textureHeight := Option.none,
    viewport := { x := 0, y := 0, width := 0, height := 0 } }

/-- Equality of every observable field of two sub-images except their object
identity. -/
def SubImage.sameContent (a b : SubImage) : Prop :=
  a.imageIndex = b.imageIndex ∧ a.colorTexture = b.colorTexture ∧
  a.depthStencilTexture = b.depthStencilTexture ∧ a.textureWidth = b.textureWidth ∧
  a.textureHeight = b.textureHeight ∧ a.viewport = b.viewport

instance (a b : SubImage) : Decidable (a.sameContent b) := by
  unfold SubImage.sameContent; infer_instance

/-- The whole mutable state an `XRWebGLBindingPolyfill` call can touch:
the session, the layer heap (JavaScript objects addressed by their identity
`lid`), the binding's eye- and view-keyed sub-image caches and the two
identity counters.  Each cache entry is
`(contextId, layerId, eyeOrViewKey, subimage)`; `SubImageCache.cacheSubImage`
replaces a context's whole nested map with a fresh single-entry one, so a
context holds at most one live entry. -/
structure PolyfillState where
  session : SessionState
  layers : Nat → Option LayerData
  cache : List (Nat × Nat × XREye × SubImage)
  viewCache : List (Nat × Nat × Nat × SubImage)
  nextSubImageId : Nat
  nextTextureId : Nat

/-- The immutable identity of one `XRWebGLBindingPolyfill`: its session, its
context and the context's capabilities. -/
structure Binding where
  sessionId : Nat
  contextId : Nat
  ctx : GLContext
deriving DecidableEq, Repr

/-- `SubImageCache.tryGetCachedSubImage`. -/
def cacheLookup (cache : List (Nat × Nat × XREye × SubImage)) (ctxId lid : Nat)
    (eye : XREye) : Option SubImage :=
  match cache.find? (fun e => decide (e.1 = ctxId)) with
  | some (_, l, ey, sub) => if l = lid ∧ ey = eye then some sub else Option.none
  | Option.none => Option.none

/-- `SubImageCache.cacheSubImage`: replaces the context's entry with a fresh
single-entry map holding only this (layer, eye) key. -/
def cacheSet (cache : List (Nat × Nat × XREye × SubImage)) (ctxId lid : Nat)
    (eye : XREye) (sub : SubImage) : List (Nat × Nat × XREye × SubImage) :=
  (ctxId, lid, eye, sub) :: cache.filter (fun e => ¬(e.1 = ctxId))

/-- `SubImageCache.tryGetCachedViewSubImage` (the view-keyed cache). -/
def viewCacheLookup (cache : List (Nat × Nat × Nat × SubImage)) (ctxId lid vid : Nat) :
    Option SubImage :=
  match cache.find? (fun e => decide (e.1 = ctxId)) with
  | some (_, l, v, sub) => if l = lid ∧ v = vid then some sub else Option.none
  | Option.none => Option.none

/-- `SubImageCache.cacheViewSubImage`. -/
def viewCacheSet (cache : List (Nat × Nat × Nat × SubImage)) (ctxId lid vid : Nat)
    (sub : SubImage) : List (Nat × Nat × Nat × SubImage) :=
  (ctxId, lid, vid, sub) :: cache.filter (fun e => ¬(e.1 = ctxId))

/-- Dereferences a layer object by its identity. -/
def findLayer (layers : Nat → Option LayerData) (lid : Nat) : Option LayerData :=
  layers lid

/-- Writes back a mutated layer object under its identity. -/
def updateLayer (layers : Nat → Option LayerData) (l : LayerData) :
    Nat → Option LayerData :=
  fun x => if x = l.lid then some l else layers x

/-- The `colorTextures` getter: the quad/cylinder/equirect override throws for
media layers and lazily allocates when the backing array is still empty; the
projection override lazily runs the projection allocation; the base getter
(cube layers) just reads the field. -/
def ensureColorTextures (ctx : GLContext) (viewCount : Nat) (baseWidth baseHeight : ℚ)
    (layer : LayerData) (texId : Nat) : (LayerData × Nat) × Option JSError :=
  match layer.kind with
  | LayerKind.cube => ((layer, texId), Option.none)
  | LayerKind.projection =>
    if layer.colorTextures = [] then
      allocateProjectionColorTextures ctx viewCount baseWidth baseHeight layer texId
    else ((layer, texId), Option.none)
  | _ =>
    if layer.isMedia then
      ((layer, texId), some (JSError.error "Media layers do not have associated textures"))
    else if layer.colorTextures = [] then
      allocateColorTexturesInternal ctx viewCount layer texId
    else ((layer, texId), Option.none)

/-- The `depthStencilTextures` getter, with the same dispatch as
`ensureColorTextures`. -/
def ensureDepthStencilTextures (ctx : GLContext) (viewCount : Nat)
    (baseWidth baseHeight : ℚ) (layer : LayerData) (texId : Nat) :
    (LayerData × Nat) × Option JSError :=
  match layer.kind with
  | LayerKind.cube => ((layer, texId), Option.none)
  | LayerKind.projection =>
    if layer.depthStencilTextures = [] then
      allocateProjectionDepthStencilTextures ctx viewCount baseWidth baseHeight layer texId
    else ((layer, texId), Option.none)
  | _ =>
    if layer.isMedia then
      ((layer, texId), some (JSError.error "Media layers do not have associated textures"))
    else if layer.depthStencilTextures = [] then
      allocateDepthStencilTexturesInternal ctx layer texId
    else ((layer, texId), Option.none)

/-- The texture- and viewport-selection tail of
`XRWebGLBindingPolyfill.getSubImage`, applied to the layer as it stands after
the lazy getters have run: texture-slot index from the layout and eye,
`imageIndex` for texture arrays, the chosen color and depth textures, the
texture dimensions from the metadata of the chosen slot, and the packed
viewport.  `Option.none` models the `TypeError` JavaScript throws when the
metadata lookup yields `undefined`. -/
def buildSubImage (sid : Nat) (layer : LayerData) (eye : XREye) : Option SubImage :=
  let index : Nat := if layer.layout = XRLayerLayout.stereo ∧ eye = XREye.right then 1 else 0
  let textureIndex : Nat := if layer.textureType = XRTextureType.texture then index else 0
  match layer.texturesMeta.get? textureIndex with
  | Option.none => Option.none
  | some meta =>
    some
      { sid := sid
        imageIndex :=
          some (if layer.textureType = XRTextureType.textureArray then (index : Int) else 0)
        colorTexture := layer.colorTextures.get? textureIndex
        depthStencilTexture :=
          if layer.depthStencilTextures = [] then Option.none
          else if layer.textureType = XRTextureType.texture then
            layer.depthStencilTextures.get? index
          else layer.depthStencilTextures.get? 0
        textureWidth := some meta.width
        textureHeight := some meta.height
        viewport :=
          initializeViewport meta layer.layout (index : ℚ)
            (if layer.layout = XRLayerLayout.stereoLeftRight ∨
                layer.layout = XRLayerLayout.stereoTopBottom then 2 else 1) }

/-- `XRWebGLBindingPolyfill.getSubImage`, with the source's exact sequence of
checks and effects: the static/`needsRedraw` gate, the cache probe, sub-image
construction, the projection and default-layout rejections, the
session/context part of `validateStateofSubImageCreation`, the lazy
`colorTextures` access (which may resolve the layout and allocate), the
non-empty and static re-checks, the stereo `"none"`-eye rejection, the lazy
`depthStencilTextures` access, field selection, the queued `needsRedraw`
clear and the cache write. -/
def getSubImage (b : Binding) (frameSessionId lid : Nat) (eye : XREye)
    (s : PolyfillState) : PolyfillState × Except JSError SubImage :=
  match findLayer s.layers lid with
  | Option.none => (s, Except.error (JSError.typeError "not a polyfill layer"))
  | some layer =>
  if layer.isStatic ∧ layer.needsRedraw = some false then
    (s, Except.error (JSError.error "Invalid state for subimage creation"))
  else
  match cacheLookup s.cache b.contextId lid eye with
  | some existing => (s, Except.ok existing)
  | Option.none =>
  let sid := s.nextSubImageId
  let s1 : PolyfillState := { s with nextSubImageId := s.nextSubImageId + 1 }
  if layer.kind = LayerKind.projection then
    (s1, Except.error (JSError.typeError ""))
  else if layer.layout = XRLayerLayout.default then
    (s1, Except.error (JSError.typeError ""))
  else if ¬(frameSessionId = layer.sessionId ∧ b.sessionId = layer.sessionId ∧
      b.contextId = layer.contextId) then
    (s1, Except.error (JSError.error "Invalid state for subimage creation"))
  else
  match ensureColorTextures b.ctx s1.session.views.length s1.session.baseWidth
      s1.session.baseHeight layer s1.nextTextureId with
  | ((layer, texId), some e) =>
      ({ s1 with layers := updateLayer s1.layers layer, nextTextureId := texId },
       Except.error e)
  | ((layer, texId), Option.none) =>
  let s2 : PolyfillState :=
    { s1 with layers := updateLayer s1.layers layer, nextTextureId := texId }
  if layer.colorTextures = [] then
    (s2, Except.error (JSError.error "Invalid state for subimage creation"))
  else if layer.isStatic ∧ layer.needsRedraw = some false then
    (s2, Except.error (JSError.error "Invalid state for subimage creation"))
  else if layer.layout = XRLayerLayout.stereo ∧ eye = XREye.none then
    (s2, Except.error (JSError.typeError ""))
  else
  match ensureDepthStencilTextures b.ctx s2.session.views.length s2.session.baseWidth
      s2.session.baseHeight layer s2.nextTextureId with
  | ((layer, texId), some e) =>
      ({ s2 with layers := updateLayer s2.layers layer, nextTextureId := texId },
       Except.error e)
  | ((layer, texId), Option.none) =>
  let s3 : PolyfillState :=
    { s2 with layers := updateLayer s2.layers layer, nextTextureId := texId }
  match buildSubImage sid layer eye with
  | Option.none => (s3, Except.error (JSError.typeError ""))
  | some sub =>
    let s4 : PolyfillState :=
      { s3 with
        session := { s3.session with taskQueue := s3.session.taskQueue ++ [lid] } }
    ({ s4 with cache := cacheSet s4.cache b.contextId lid eye sub }, Except.ok sub)

/-- JavaScript array indexing with a possibly negative index: `arr[-1]` is
`undefined`. -/
def jsIndex {α : Type} (l : List α) (i : Int) : Option α :=
  if i < 0 then Option.none else l.get? i.toNat

/-- `XRWebGLBindingPolyfill.getViewSubImage`: the view-keyed,
projection-layer variant.  When the session has no views yet it warns and
returns the still-default sub-image without touching the layer or the cache;
otherwise it resolves the view's offset in the session's view list, selects
textures, sets `needsRedraw` to false immediately (not queued) and caches the
result. -/
def getViewSubImage (b : Binding) (lid : Nat) (view : XRView) (s : PolyfillState) :
    PolyfillState × Except JSError SubImage :=
  match viewCacheLookup s.viewCache b.contextId lid view.vid with
  | some existing => (s, Except.ok existing)
  | Option.none =>
  let sid := s.nextSubImageId
  let s1 : PolyfillState := { s with nextSubImageId := s.nextSubImageId + 1 }
  if s1.session.views = [] then
    -- "Tried to get view sub image before we have any views"
    (s1, Except.ok (newSubImage sid))
  else
  match findLayer s1.layers lid with
  | Option.none => (s1, Except.error (JSError.typeError "not a polyfill layer"))
  | some layer =>
  let index : Int := getViewIndex s1.session.views view
  match ensureColorTextures b.ctx s1.session.views.length s1.session.baseWidth
      s1.session.baseHeight layer s1.nextTextureId with
  | ((layer, texId), some e) =>
      ({ s1 with layers := updateLayer s1.layers layer, nextTextureId := texId },
       Except.error e)
  | ((layer, texId), Option.none) =>
  let s2 : PolyfillState :=
    { s1 with layers := updateLayer s1.layers layer, nextTextureId := texId }
  match ensureDepthStencilTextures b.ctx s2.session.views.length s2.session.baseWidth
      s2.session.baseHeight layer s2.nextTextureId with
  | ((layer, texId), some e) =>
      ({ s2 with layers := updateLayer s2.layers layer, nextTextureId := texId },
       Except.error e)
  | ((layer, texId), Option.none) =>
  let s3 : PolyfillState :=
    { s2 with layers := updateLayer s2.layers layer, nextTextureId := texId }
  let textureIndex : Int :=
    if layer.layout = XRLayerLayout.default ∧ layer.textureType = XRTextureType.texture
    then index else 0
  match jsIndex layer.texturesMeta textureIndex with
  | Option.none => (s3, Except.error (JSError.typeError ""))
  | some meta =>
  let sub : SubImage :=
    { sid := sid
      imageIndex :=
        some (if layer.textureType = XRTextureType.textureArray then index else 0)
      colorTexture := jsIndex layer.colorTextures textureIndex
      depthStencilTexture :=
        if layer.depthStencilTextures.length = 0 then Option.none
        else if layer.layout = XRLayerLayout.default ∧
            layer.textureType = XRTextureType.texture then
          jsIndex layer.depthStencilTextures index
        else layer.depthStencilTextures.get? 0
      textureWidth := some meta.width
      textureHeight := some meta.height
      viewport :=
        initializeViewport meta layer.layout (index : ℚ)
          (s3.session.views.length : ℚ) }
  let layer := { layer with needsRedraw := some false }
  let s4 : PolyfillState := { s3 with layers := updateLayer s3.layers layer }
  ({ s4 with viewCache := viewCacheSet s4.viewCache b.contextId lid view.vid sub },
   Except.ok sub)

/-- Executes one queued task: the closures queued by `getSubImage` clear one
layer's `needsRedraw`. -/
def runTask (layers : Nat → Option LayerData) (lid : Nat) : Nat → Option LayerData :=
  fun x =>
    if x = lid then Option.map (fun l => { l with needsRedraw := some false }) (layers x)
    else layers x

/-- The task-queue drain at the end of `injectedFrameCallback`: runs every
queued task in FIFO order and leaves the queue empty. -/
def flushTaskQueue (s : PolyfillState) : PolyfillState :=
  { s with layers := s.session.taskQueue.foldl runTask s.layers
           session := { s.session with taskQueue := [] } }

/-- Sets one layer's `needsRedraw` field to true. -/
def setNeedsRedrawTrue (layers : Nat → Option LayerData) (lid : Nat) :
    Nat → Option LayerData :=
  fun x =>
    if x = lid then Option.map (fun l => { l with needsRedraw := some true }) (layers x)
    else layers x

/-- An application writing `layer.needsRedraw = true` (the public field). -/
def resetNeedsRedraw (s : PolyfillState) (lid : Nat) : PolyfillState :=
  { s with layers := setNeedsRedrawTrue s.layers lid }

/-- Runs a sequence of `getSubImage` requests `(layerId, eye)` against one
binding within one frame, collecting each call's outcome. -/
def runRequests (b : Binding) (frameSessionId : Nat) (s : PolyfillState) :
    List (Nat × XREye) → PolyfillState × List (Except JSError SubImage)
  | [] => (s, [])
  | q :: qs =>
    let (s1, r) := getSubImage b frameSessionId q.1 q.2 s
    let (s2, rs) := runRequests b frameSessionId s1 qs
    (s2, r :: rs)

/-- An `XRSpace`; only whether it is a reference space is observable here. -/
structure XRSpace where
  isRefSpace : Bool
deriving DecidableEq, Repr

/-- Modelled from the spec: the `is-reference-space` utility (its
implementation file is not part of the snapshot; only its callers are).  Per
the spec's reference-space-only constraint, a space passes the check exactly
when it is a reference space, and the `null` default does not. -/
def isReferenceSpace (space : Option XRSpace) : Bool :=
  match space with
  | some sp => sp.isRefSpace
  | Option.none => false

/-- The `XRCubeLayerInit` dictionary after merging with
`defaultCubeLayerInit`. -/
structure XRCubeLayerInit where
  space : Option XRSpace
  layout : XRLayerLayout
  isStatic : Bool
  colorFormat : Nat
  depthFormat : Nat
  mipLevels : Int
  viewPixelWidth : ℚ
  viewPixelHeight : ℚ
deriving DecidableEq, Repr

/-- The `XRCubeLayer` constructor: rejects a non-reference space, then
rejects the `default`, `stereo-left-right` and `stereo-top-bottom` layouts
with a `TypeError`, and otherwise produces a layer with the requested layout
and `needsRedraw` set to true.  (Texture allocation happens later, in
`initialize`.) -/
def cubeLayerConstruct (lid sessionId contextId : Nat) (init : XRCubeLayerInit) :
    Except JSError LayerData :=
  if ¬isReferenceSpace init.space then
    Except.error (JSError.typeError "XRCubeLayer's space needs to be an XRReferenceSpace")
  else if init.layout = XRLayerLayout.default ∨
      init.layout = XRLayerLayout.stereoLeftRight ∨
      init.layout = XRLayerLayout.stereoTopBottom then
    Except.error (JSError.typeError "Invalid layout format for XRCubeLayer")
  else
    Except.ok
      { lid := lid, kind := LayerKind.cube, isMedia := false, layout := init.layout,
        textureType := XRTextureType.texture, isStatic := init.isStatic,
        needsRedraw := some true, hasRunDeferredInitialize := false,
        viewPixelWidth := init.viewPixelWidth, viewPixelHeight := init.viewPixelHeight,
        colorFormat := init.colorFormat, depthFormat := init.depthFormat,
        mipLevels := init.mipLevels, scaleFactor := 1, colorTextures := [],
        texturesMeta := [], depthStencilTextures := [], sessionId := sessionId,
        contextId := contextId }

/-- `XRMediaBindingPolyfill.calculateAspectRatio`: the video's aspect ratio,
halving the width for `stereo-left-right` and the height for
`stereo-top-bottom`. -/
def calculateAspectRatio (videoWidth videoHeight : ℚ) (layout : XRLayerLayout) : ℚ :=
  let width := if layout = XRLayerLayout.stereoLeftRight then videoWidth / 2 else videoWidth
  let height := if layout = XRLayerLayout.stereoTopBottom then videoHeight / 2 else videoHeight
  width / height

/-- The width/height/layout part of `XRMediaQuadLayerInit` (`width` and
`height` are optional in the dictionary). -/
structure XRMediaQuadLayerInit where
  layout : XRLayerLayout
  width : Option ℚ
  height : Option ℚ
deriving DecidableEq, Repr

/-- The dimension-defaulting logic of
`XRMediaBindingPolyfill.createQuadLayer`: reject the default layout, then
fill in missing dimensions from the video-derived aspect ratio exactly as the
source's three sequential conditionals do.  The `getD 0` fallbacks model
reads of fields that are always set at those points. -/
def mediaQuadLayerDims (videoWidth videoHeight : ℚ) (init : XRMediaQuadLayerInit) :
    Except JSError (ℚ × ℚ) :=
  if init.layout = XRLayerLayout.default then
    Except.error (JSError.typeError "Media Quad layer cannot be created with layout of default")
  else
    let aspectRatio := calculateAspectRatio videoWidth videoHeight init.layout
    let init :=
      if init.width = Option.none ∧ init.height = Option.none then
        { init with width := some 1 }
      else init
    let init :=
      if init.height = Option.none then
        { init with height := some (init.width.getD 0 / aspectRatio) }
      else init
    let init :=
      if init.width = Option.none then
        { init with width := some (init.height.getD 0 / aspectRatio) }
      else init
    Except.ok (init.width.getD 0, init.height.getD 0)

/-- The aspect-ratio/layout part of `XRMediaCylinderLayerInit`
(`aspectRatio` is optional in the dictionary). -/
structure XRMediaCylinderLayerInit where
  layout : XRLayerLayout
  aspectRatio : Option ℚ
deriving DecidableEq, Repr

/-- The aspect-ratio defaulting of
`XRMediaBindingPolyfill.createCylinderLayer`: reject the default layout, then
use the video-derived aspect ratio when the dictionary left it out. -/
def mediaCylinderLayerAspectRatio (videoWidth videoHeight : ℚ)
    (init : XRMediaCylinderLayerInit) : Except JSError ℚ :=
  if init.layout = XRLayerLayout.default then
    Except.error
      (JSError.typeError "Media Cylinder layer cannot be created with layout of default")
  else
    let aspectRatio := calculateAspectRatio videoWidth videoHeight init.layout
    Except.ok (init.aspectRatio.getD aspectRatio)

/-! ## Concrete fixtures used by witnesses and counterexamples -/

/-- A WebGL 2 context with depth textures available. -/
def exCtx2 : GLContext := { isWebGL2 := true, hasDepthTextureExtension := true }

/-- A WebGL 1 context without the `WEBGL_depth_texture` extension. -/
def exCtx1 : GLContext := { isWebGL2 := false, hasDepthTextureExtension := false }

/-- A binding on session 0 and context 0 over the WebGL 2 context. -/
def exBinding : Binding := { sessionId := 0, contextId := 0, ctx := exCtx2 }

/-- A 512×512 mono quad layer on session 0 / context 0 whose color texture
(GL object `tex`) is already allocated and whose layout is resolved. -/
def exQuad (lid tex : Nat) : LayerData :=
  { lid := lid, kind := LayerKind.quad, isMedia := false,
    layout := XRLayerLayout.mono, textureType := XRTextureType.texture,
    isStatic := false, needsRedraw := some true, hasRunDeferredInitialize := true,
    viewPixelWidth := 512, viewPixelHeight := 512, colorFormat := GL_RGBA,
    depthFormat := 0, mipLevels := 1, scaleFactor := 1,
    colorTextures := [tex],
    texturesMeta := [⟨tex, GL_RGBA, 512, 512, 1, XRTextureType.texture⟩],
    depthStencilTextures := [], sessionId := 0, contextId := 0 }

/-- A two-view session (left and right eye views) on a 512×512 base layer. -/
def exSession : SessionState :=
  { sessionId := 0,
    views := [⟨0, XREye.left, Option.none⟩, ⟨1, XREye.right, Option.none⟩],
    baseWidth := 512, baseHeight := 512, taskQueue := [] }

/-- A heap holding the two allocated quad layers. -/
def exLayers : Nat → Option LayerData :=
  fun lid =>
    if lid = 1 then some (exQuad 1 10)
    else if lid = 2 then some (exQuad 2 11)
    else Option.none

/-- A state holding two allocated quad layers with empty caches. -/
def exState : PolyfillState :=
  { session := exSession, layers := exLayers, cache := [],
    viewCache := [], nextSubImageId := 100, nextTextureId := 50 }

/-! ## Viewport packing (C3) -/

/-- C3: for a texture of width `W` and height `H` and `numViews = 2`,
`initializeViewport` with layout `stereo-left-right` yields
`{x:0, y:0, width:W/2, height:H}` at offset 0 and
`{x:W/2, y:0, width:W/2, height:H}` at offset 1; with `stereo-top-bottom` it
yields `{x:0, y:0, width:W, height:H/2}` at offset 0 and
`{x:0, y:H/2, width:W, height:H/2}` at offset 1; for any other layout it
yields the full texture `{x:0, y:0, width:W, height:H}`. -/
theorem initializeViewport_packing (W H : ℚ) (tex fmt layers : Nat) (ty : XRTextureType) :
    initializeViewport ⟨tex, fmt, W, H, layers, ty⟩ XRLayerLayout.stereoLeftRight 0 2 =
      ⟨0, 0, W / 2, H⟩ ∧
    initializeViewport ⟨tex, fmt, W, H, layers, ty⟩ XRLayerLayout.stereoLeftRight 1 2 =
      ⟨W / 2, 0, W / 2, H⟩ ∧
    initializeViewport ⟨tex, fmt, W, H, layers, ty⟩ XRLayerLayout.stereoTopBottom 0 2 =
      ⟨0, 0, W, H / 2⟩ ∧
    initializeViewport ⟨tex, fmt, W, H, layers, ty⟩ XRLayerLayout.stereoTopBottom 1 2 =
      ⟨0, H / 2, W, H / 2⟩ ∧
    ∀ (layout : XRLayerLayout) (offset : ℚ),
      layout ≠ XRLayerLayout.stereoLeftRight → layout ≠ XRLayerLayout.stereoTopBottom →
      initializeViewport ⟨tex, fmt, W, H, layers, ty⟩ layout offset 2 = ⟨0, 0, W, H⟩ := by
  refine ⟨?_, ?_, ?_, ?_, ?_⟩
  · simp [initializeViewport]
  · simp [initializeViewport]
  · simp [initializeViewport]
  · simp [initializeViewport]
  · intro layout offset h1 h2
    simp [initializeViewport, h1, h2]

/-- Witness for C3 at a concrete 1024×512 texture and the mono layout. -/
theorem initializeViewport_packing_witness :
    initializeViewport ⟨7, GL_RGBA, 1024, 512, 1, XRTextureType.texture⟩
      XRLayerLayout.stereoLeftRight 1 2 = ⟨512, 0, 512, 512⟩ ∧
    initializeViewport ⟨7, GL_RGBA, 1024, 512, 1, XRTextureType.texture⟩
      XRLayerLayout.mono 0 2 = ⟨0, 0, 1024, 512⟩ := by
  have h := initializeViewport_packing 1024 512 7 GL_RGBA 1 XRTextureType.texture
  refine ⟨?_, ?_⟩
  · have := h.2.1
    norm_num at this ⊢
    exact this
  · exact h.2.2.2.2 XRLayerLayout.mono 0 (by decide) (by decide)

/-! ## Deferred layout resolution of "default" (C4) -/

/-- C4: a layer created with layout `"default"` resolves to `"mono"` when the
session's view list has exactly one view; with more than one view it resolves
to `"stereo-left-right"` for the single-texture kind and keeps `"default"`
for the texture-array kind (on a context capable of texture arrays). -/
theorem determineLayout_default_resolution (ty : XRTextureType) (ctx : GLContext)
    (n : Nat) (harr : ty = XRTextureType.textureArray → ctx.isWebGL2 = true) :
    (n = 1 →
      determineLayoutAttribute ty ctx n XRLayerLayout.default =
        Except.ok XRLayerLayout.mono) ∧
    (1 < n → ty = XRTextureType.texture →
      determineLayoutAttribute ty ctx n XRLayerLayout.default =
        Except.ok XRLayerLayout.stereoLeftRight) ∧
    (1 < n → ty = XRTextureType.textureArray →
      determineLayoutAttribute ty ctx n XRLayerLayout.default =
        Except.ok XRLayerLayout.default) := by
  refine ⟨?_, ?_, ?_⟩
  · intro hn
    subst hn
    cases ty with
    | texture => simp [determineLayoutAttribute]
    | textureArray => simp [determineLayoutAttribute, harr rfl]
  · intro hn hty
    subst hty
    simp [determineLayoutAttribute, Nat.ne_of_gt hn]
  · intro hn hty
    subst hty
    simp [determineLayoutAttribute, harr rfl, Nat.ne_of_gt hn]

/-- Witness for C4: a WebGL 2 context; one view gives mono, two views give
stereo-left-right (single texture) or keep default (texture array). -/
theorem determineLayout_default_resolution_witness :
    determineLayoutAttribute XRTextureType.texture ⟨true, true⟩ 1 XRLayerLayout.default =
      Except.ok XRLayerLayout.mono ∧
    determineLayoutAttribute XRTextureType.texture ⟨true, true⟩ 2 XRLayerLayout.default =
      Except.ok XRLayerLayout.stereoLeftRight ∧
    determineLayoutAttribute XRTextureType.textureArray ⟨true, true⟩ 2 XRLayerLayout.default =
      Except.ok XRLayerLayout.default := by
  refine ⟨?_, ?_, ?_⟩
  · exact (determineLayout_default_resolution XRTextureType.texture ⟨true, true⟩ 1
      (fun _ => rfl)).1 rfl
  · exact (determineLayout_default_resolution XRTextureType.texture ⟨true, true⟩ 2
      (fun _ => rfl)).2.1 (by decide) rfl
  · exact (determineLayout_default_resolution XRTextureType.textureArray ⟨true, true⟩ 2
      (fun _ => rfl)).2.2 (by decide) rfl

/-! ## Color-texture allocation sizing (C2) -/

/-- C2: with the layout already resolved, color-texture allocation produces
exactly: one `(w, h)` texture for mono + single-texture kind; two separate
`(w, h)` textures (distinct GL texture objects `texId` and `texId + 1`) for
stereo + single-texture kind; one 2-layer `(w, h)` array texture for stereo +
array kind; one `(2w, h)` texture for stereo-left-right; one `(w, 2h)`
texture for stereo-top-bottom. -/
theorem allocateColorTextures_sizing (ctx : GLContext) (n : Nat) (L : LayerData)
    (texId : Nat) (hn : n ≠ 0) (hrun : L.hasRunDeferredInitialize = true)
    (harr : L.textureType = XRTextureType.textureArray → ctx.isWebGL2 = true) :
    (L.layout = XRLayerLayout.mono → L.textureType = XRTextureType.texture →
      allocateColorTexturesInternal ctx n L texId =
        (({ L with
            texturesMeta :=
              [⟨texId, L.colorFormat, L.viewPixelWidth, L.viewPixelHeight, 1, L.textureType⟩]
            colorTextures := [texId] }, texId + 1), Option.none)) ∧
    (L.layout = XRLayerLayout.stereo → L.textureType = XRTextureType.texture →
      allocateColorTexturesInternal ctx n L texId =
        (({ L with
            texturesMeta :=
              [⟨texId, L.colorFormat, L.viewPixelWidth, L.viewPixelHeight, 1, L.textureType⟩,
               ⟨texId + 1, L.colorFormat, L.viewPixelWidth, L.viewPixelHeight, 1,
                L.textureType⟩]
            colorTextures := [texId, texId + 1] }, texId + 2), Option.none)) ∧
    (L.layout = XRLayerLayout.stereo → L.textureType = XRTextureType.textureArray →
      allocateColorTexturesInternal ctx n L texId =
        (({ L with
            texturesMeta :=
              [⟨texId, L.colorFormat, L.viewPixelWidth, L.viewPixelHeight, 2, L.textureType⟩]
            colorTextures := [texId] }, texId + 1), Option.none)) ∧
    (L.layout = XRLayerLayout.stereoLeftRight →
      allocateColorTexturesInternal ctx n L texId =
        (({ L with
            texturesMeta :=
              [⟨texId, L.colorFormat, L.viewPixelWidth * 2, L.viewPixelHeight, 1,
                L.textureType⟩]
            colorTextures := [texId] }, texId + 1), Option.none)) ∧
    (L.layout = XRLayerLayout.stereoTopBottom →
      allocateColorTexturesInternal ctx n L texId =
        (({ L with
            texturesMeta :=
              [⟨texId, L.colorFormat, L.viewPixelWidth, L.viewPixelHeight * 2, 1,
                L.textureType⟩]
            colorTextures := [texId] }, texId + 1), Option.none)) := by
  have hgen : ∀ (w h : ℚ) (fmt layers t : Nat),
      createGenericPolyfillTexture ctx L.textureType w h fmt layers t =
        Except.ok (⟨t, fmt, w, h, layers, L.textureType⟩, t + 1) := by
    intro w h fmt layers t
    unfold createGenericPolyfillTexture
    rcases hty : L.textureType with _ | _
    · simp
    · simp [harr hty]
  refine ⟨?_, ?_, ?_, ?_, ?_⟩ <;> intro hl
  all_goals try intro hty
  all_goals
    simp [allocateColorTexturesInternal, hn, initializeIfNeeded, hrun, hl, hgen]
  all_goals simp_all

/-- Witness for C2 at `viewPixelWidth = viewPixelHeight = 512` on a WebGL 2
context: mono yields one 512×512 texture, stereo yields two separate 512×512
textures, stereo + array one 2-layer texture, stereo-left-right one 1024×512
texture, stereo-top-bottom one 512×1024 texture. -/
theorem allocateColorTextures_sizing_witness :
    (allocateColorTexturesInternal ⟨true, true⟩ 2
        { lid := 3, kind := LayerKind.quad, isMedia := false,
          layout := XRLayerLayout.mono, textureType := XRTextureType.texture,
          isStatic := false, needsRedraw := some true, hasRunDeferredInitialize := true,
          viewPixelWidth := 512, viewPixelHeight := 512, colorFormat := GL_RGBA,
          depthFormat := 0, mipLevels := 1, scaleFactor := 1, colorTextures := [],
          texturesMeta := [], depthStencilTextures := [], sessionId := 0,
          contextId := 0 } 50).1.1.texturesMeta =
      [⟨50, GL_RGBA, 512, 512, 1, XRTextureType.texture⟩] ∧
    (allocateColorTexturesInternal ⟨true, true⟩ 2
        { lid := 3, kind := LayerKind.quad, isMedia := false,
          layout := XRLayerLayout.stereo, textureType := XRTextureType.texture,
          isStatic := false, needsRedraw := some true, hasRunDeferredInitialize := true,
          viewPixelWidth := 512, viewPixelHeight := 512, colorFormat := GL_RGBA,
          depthFormat := 0, mipLevels := 1, scaleFactor := 1, colorTextures := [],
          texturesMeta := [], depthStencilTextures := [], sessionId := 0,
          contextId := 0 } 50).1.1.colorTextures = [50, 51] ∧
    (allocateColorTexturesInternal ⟨true, true⟩ 2
        { lid := 3, kind := LayerKind.quad, isMedia := false,
          layout := XRLayerLayout.stereoLeftRight, textureType := XRTextureType.texture,
          isStatic := false, needsRedraw := some true, hasRunDeferredInitialize := true,
          viewPixelWidth := 512, viewPixelHeight := 512, colorFormat := GL_RGBA,
          depthFormat := 0, mipLevels := 1, scaleFactor := 1, colorTextures := [],
          texturesMeta := [], depthStencilTextures := [], sessionId := 0,
          contextId := 0 } 50).1.1.texturesMeta =
      [⟨50, GL_RGBA, 1024, 512, 1, XRTextureType.texture⟩] := by
  refine ⟨?_, ?_, ?_⟩
  · rw [(allocateColorTextures_sizing ⟨true, true⟩ 2 _ 50 (by decide) rfl
      (by intro h; cases h)).1 rfl rfl]
  · rw [(allocateColorTextures_sizing ⟨true, true⟩ 2 _ 50 (by decide) rfl
      (by intro h; cases h)).2.1 rfl rfl]
  · rw [(allocateColorTextures_sizing ⟨true, true⟩ 2 _ 50 (by decide) rfl
      (by intro h; cases h)).2.2.2.1 rfl]
    norm_num

/-! ## Cube-layer layout rejection (C6) -/

/-- C6: with a valid reference space, constructing a cube layer with layout
`"default"`, `"stereo-left-right"` or `"stereo-top-bottom"` throws a
`TypeError`, while `"mono"` and `"stereo"` succeed (the layer keeps the
requested layout and starts with `needsRedraw` true). -/
theorem cubeLayer_layout_rejection (lid sessionId contextId : Nat)
    (init : XRCubeLayerInit) (hspace : isReferenceSpace init.space = true) :
    ((init.layout = XRLayerLayout.default ∨
        init.layout = XRLayerLayout.stereoLeftRight ∨
        init.layout = XRLayerLayout.stereoTopBottom) →
      cubeLayerConstruct lid sessionId contextId init =
        Except.error (JSError.typeError "Invalid layout format for XRCubeLayer")) ∧
    ((init.layout = XRLayerLayout.mono ∨ init.layout = XRLayerLayout.stereo) →
      ∃ L, cubeLayerConstruct lid sessionId contextId init = Except.ok L ∧
        L.layout = init.layout ∧ L.isStatic = init.isStatic ∧
        L.needsRedraw = some true) := by
  constructor
  · intro hl
    simp [cubeLayerConstruct, hspace, hl]
  · intro hl
    have hne : ¬(init.layout = XRLayerLayout.default ∨
        init.layout = XRLayerLayout.stereoLeftRight ∨
        init.layout = XRLayerLayout.stereoTopBottom) := by
      rcases hl with h | h <;> rw [h] <;> decide
    exact ⟨{ lid := lid, kind := LayerKind.cube, isMedia := false,
             layout := init.layout, textureType := XRTextureType.texture,
             isStatic := init.isStatic, needsRedraw := some true,
             hasRunDeferredInitialize := false,
             viewPixelWidth := init.viewPixelWidth,
             viewPixelHeight := init.viewPixelHeight,
             colorFormat := init.colorFormat, depthFormat := init.depthFormat,
             mipLevels := init.mipLevels, scaleFactor := 1, colorTextures := [],
             texturesMeta := [], depthStencilTextures := [], sessionId := sessionId,
             contextId := contextId },
      by simp [cubeLayerConstruct, hspace, hne], rfl, rfl, rfl⟩

/-- Witness for C6: a concrete reference space; stereo-left-right is
rejected, stereo succeeds. -/
theorem cubeLayer_layout_rejection_witness :
    cubeLayerConstruct 9 0 0
      { space := some ⟨true⟩, layout := XRLayerLayout.stereoLeftRight,
        isStatic := false, colorFormat := GL_RGBA, depthFormat := 0, mipLevels := 1,
        viewPixelWidth := 64, viewPixelHeight := 64 } =
      Except.error (JSError.typeError "Invalid layout format for XRCubeLayer") ∧
    ∃ L, cubeLayerConstruct 9 0 0
        { space := some ⟨true⟩, layout := XRLayerLayout.stereo, isStatic := false,
          colorFormat := GL_RGBA, depthFormat := 0, mipLevels := 1,
          viewPixelWidth := 64, viewPixelHeight := 64 } = Except.ok L ∧
      L.layout = XRLayerLayout.stereo ∧ L.isStatic = false ∧
      L.needsRedraw = some true := by
  constructor
  · exact (cubeLayer_layout_rejection 9 0 0
      { space := some ⟨true⟩, layout := XRLayerLayout.stereoLeftRight,
        isStatic := false, colorFormat := GL_RGBA, depthFormat := 0, mipLevels := 1,
        viewPixelWidth := 64, viewPixelHeight := 64 } rfl).1 (Or.inr (Or.inl rfl))
  · exact (cubeLayer_layout_rejection 9 0 0
      { space := some ⟨true⟩, layout := XRLayerLayout.stereo, isStatic := false,
        colorFormat := GL_RGBA, depthFormat := 0, mipLevels := 1,
        viewPixelWidth := 64, viewPixelHeight := 64 } rfl).2 (Or.inr rfl)

/-! ## Unsupported depth formats: strict layers vs projection layers (C7) -/

/-- C7: on a WebGL 1 context without the `WEBGL_depth_texture` extension (so
the supported depth-format list is empty), requesting any depth format makes
the non-projection depth/stencil allocation throw, while the projection-layer
allocation succeeds and yields an empty depth-stencil texture list. -/
theorem depthFormat_unsupported_behavior (ctx : GLContext) (L P : LayerData)
    (n texId texId2 : Nat) (bw bh : ℚ)
    (hgl : ctx.isWebGL2 = false) (hext : ctx.hasDepthTextureExtension = false)
    (hL : L.depthFormat ≠ 0) (hP : P.depthFormat ≠ 0) (hn : n ≠ 0) :
    allocateDepthStencilTexturesInternal ctx L texId =
      ((L, texId),
       some (JSError.error "Depth format provided is not supported in non-projection layers.")) ∧
    allocateProjectionDepthStencilTextures ctx n bw bh P texId2 =
      (({ P with depthStencilTextures := [] }, texId2), Option.none) := by
  have hfmts : supportedDepthFormats ctx = [] := by
    simp [supportedDepthFormats, hgl, hext]
  constructor
  · simp [allocateDepthStencilTexturesInternal, hL, hfmts]
  · simp [allocateProjectionDepthStencilTextures, hn, hP, hgl, hext]

/-- Witness for C7: WebGL 1 without the extension, depth format
`DEPTH_COMPONENT`, two views. -/
theorem depthFormat_unsupported_behavior_witness :
    (allocateDepthStencilTexturesInternal exCtx1
        { exQuad 3 0 with depthFormat := GL_DEPTH_COMPONENT } 50).2 =
      some (JSError.error "Depth format provided is not supported in non-projection layers.") ∧
    (allocateProjectionDepthStencilTextures exCtx1 2 512 512
        { exQuad 4 0 with kind := LayerKind.projection,
                          depthFormat := GL_DEPTH_COMPONENT }
        60).1.1.depthStencilTextures = [] := by
  have h := depthFormat_unsupported_behavior exCtx1
    { exQuad 3 0 with depthFormat := GL_DEPTH_COMPONENT }
    { exQuad 4 0 with kind := LayerKind.projection, depthFormat := GL_DEPTH_COMPONENT }
    2 50 60 512 512 rfl rfl (by decide) (by decide) (by decide)
  exact ⟨by rw [h.1], by rw [h.2]⟩

/-! ## Media-binding dimension derivation (C8) -/

/-- The mono aspect ratio of a 4×2 video is 2. -/
lemma calculateAspectRatio_4_2_mono : calculateAspectRatio 4 2 XRLayerLayout.mono = 2 := by
  have h2 : XRLayerLayout.mono ≠ XRLayerLayout.stereoLeftRight := by decide
  have h3 : XRLayerLayout.mono ≠ XRLayerLayout.stereoTopBottom := by decide
  simp only [calculateAspectRatio, if_neg h2, if_neg h3]
  norm_num

/-- When only `width` is missing, `createQuadLayer` sets it to
`height / aspectRatio`. -/
lemma mediaQuadDims_width_none (vw vh h : ℚ) (layout : XRLayerLayout)
    (hl : layout ≠ XRLayerLayout.default) :
    mediaQuadLayerDims vw vh { layout := layout, width := Option.none, height := some h } =
      Except.ok (h / calculateAspectRatio vw vh layout, h) := by
  simp [mediaQuadLayerDims, hl]

/-- C8 counterexample: a 4×2 video (derived aspect ratio 2) and a mono media
quad layer with `height = 1` and `width` unspecified.  The code sets
`width = height / aspectRatio = 1/2`, so width divided by height is `1/2`,
not the derived aspect ratio 2 the claim requires. -/
theorem mediaQuad_missing_width_counterexample :
    mediaQuadLayerDims 4 2
      { layout := XRLayerLayout.mono, width := Option.none, height := some 1 } =
      Except.ok (1 / 2, 1) ∧
    calculateAspectRatio 4 2 XRLayerLayout.mono = 2 ∧
    ¬(((1 : ℚ) / 2) / 1 = 2) := by
  refine ⟨?_, calculateAspectRatio_4_2_mono, by norm_num⟩
  rw [mediaQuadDims_width_none 4 2 1 XRLayerLayout.mono (by decide),
    calculateAspectRatio_4_2_mono]

/-- C8 (amended): for media layers the missing parameters are derived from
the video's aspect ratio (width halved for stereo-left-right, height halved
for stereo-top-bottom): `createCylinderLayer` with `aspectRatio` unspecified
uses the derived value; `createQuadLayer` defaults `width` to 1 when both
dimensions are missing and sets a missing `height` to `width / aspectRatio`
(so width / height equals the derived ratio), but sets a missing `width` to
`height / aspectRatio` — so in that one case width / height equals the
reciprocal of the derived ratio, not the ratio itself. -/
theorem mediaBinding_aspect_derivation (vw vh w h : ℚ) (layout : XRLayerLayout)
    (hl : layout ≠ XRLayerLayout.default) (hvw : vw ≠ 0) (hvh : vh ≠ 0)
    (hw : w ≠ 0) (hh : h ≠ 0) :
    (mediaCylinderLayerAspectRatio vw vh
        { layout := layout, aspectRatio := Option.none } =
      Except.ok (calculateAspectRatio vw vh layout)) ∧
    (mediaQuadLayerDims vw vh
        { layout := layout, width := Option.none, height := Option.none } =
      Except.ok (1, 1 / calculateAspectRatio vw vh layout)) ∧
    (mediaQuadLayerDims vw vh
        { layout := layout, width := some w, height := Option.none } =
      Except.ok (w, w / calculateAspectRatio vw vh layout)) ∧
    (mediaQuadLayerDims vw vh
        { layout := layout, width := Option.none, height := some h } =
      Except.ok (h / calculateAspectRatio vw vh layout, h)) ∧
    (w / (w / calculateAspectRatio vw vh layout) = calculateAspectRatio vw vh layout) ∧
    ((h / calculateAspectRatio vw vh layout) / h =
      1 / calculateAspectRatio vw vh layout) := by
  have har : calculateAspectRatio vw vh layout ≠ 0 := by
    unfold calculateAspectRatio
    have h2 : (2 : ℚ) ≠ 0 := by norm_num
    split_ifs <;> positivity
  refine ⟨?_, ?_, ?_, ?_, ?_, ?_⟩
  · simp [mediaCylinderLayerAspectRatio, hl]
  · simp [mediaQuadLayerDims, hl]
  · simp [mediaQuadLayerDims, hl]
  · simp [mediaQuadLayerDims, hl]
  · field_simp
  · field_simp
    ring

/-- Witness for C8 at a 4×2 video before a mono layout: the cylinder aspect
ratio and the quad dimension defaults are all derived from ratio 2. -/
theorem mediaBinding_aspect_derivation_witness :
    mediaCylinderLayerAspectRatio 4 2
      { layout := XRLayerLayout.mono, aspectRatio := Option.none } = Except.ok 2 ∧
    mediaQuadLayerDims 4 2
      { layout := XRLayerLayout.mono, width := Option.none, height := Option.none } =
      Except.ok (1, 1 / 2) ∧
    mediaQuadLayerDims 4 2
      { layout := XRLayerLayout.mono, width := some 3, height := Option.none } =
      Except.ok (3, 3 / 2) := by
  have hm := mediaBinding_aspect_derivation 4 2 3 5 XRLayerLayout.mono
    (by decide) (by norm_num) (by norm_num) (by norm_num) (by norm_num)
  have har : calculateAspectRatio 4 2 XRLayerLayout.mono = 2 :=
    calculateAspectRatio_4_2_mono
  refine ⟨?_, ?_, ?_⟩
  · rw [hm.1, har]
  · rw [hm.2.1, har]
  · rw [hm.2.2.1, har]

/-! ## Explicit "stereo" is rewritten to "stereo-left-right" (C9) -/

/-- C9: a non-media quad/cylinder/equirect layer created with the explicit
`"stereo"` layout has its layout rewritten to `"stereo-left-right"` by the
deferred initialization that runs on first texture access, for any texture
kind (on a capable context), receiving one double-width packed texture rather
than two per-eye textures — and consequently the eye-indexed stereo
texture-slot branch of `getSubImage` is never taken for it: every eye selects
texture slot 0. -/
theorem stereoLayer_resolved_leftRight (ctx : GLContext) (n : Nat) (bw bh : ℚ)
    (L : LayerData) (texId : Nat)
    (hkind : L.kind = LayerKind.quad ∨ L.kind = LayerKind.cylinder ∨
      L.kind = LayerKind.equirect)
    (hmedia : L.isMedia = false)
    (hlayout : L.layout = XRLayerLayout.stereo)
    (hrun : L.hasRunDeferredInitialize = false)
    (hempty : L.colorTextures = [])
    (hn : n ≠ 0)
    (harr : L.textureType = XRTextureType.textureArray → ctx.isWebGL2 = true) :
    ∃ L1,
      ensureColorTextures ctx n bw bh L texId = ((L1, texId + 1), Option.none) ∧
      L1.layout = XRLayerLayout.stereoLeftRight ∧
      L1.colorTextures = [texId] ∧
      L1.texturesMeta =
        [⟨texId, L.colorFormat, L.viewPixelWidth * 2, L.viewPixelHeight, 1,
          L.textureType⟩] ∧
      (∀ (eye : XREye) (sid : Nat) (sub : SubImage),
        buildSubImage sid L1 eye = some sub →
        sub.colorTexture = some texId ∧ sub.imageIndex = some 0) := by
  have hgen : ∀ (wq hq : ℚ) (fmt layers t : Nat),
      createGenericPolyfillTexture ctx L.textureType wq hq fmt layers t =
        Except.ok (⟨t, fmt, wq, hq, layers, L.textureType⟩, t + 1) := by
    intro wq hq fmt layers t
    unfold createGenericPolyfillTexture
    rcases hty : L.textureType with _ | _
    · simp
    · simp [harr hty]
  have hres : determineLayoutAttribute L.textureType ctx n L.layout =
      Except.ok XRLayerLayout.stereoLeftRight := by
    rcases hty : L.textureType with _ | _
    · simp [determineLayoutAttribute, hlayout]
    · simp [determineLayoutAttribute, hlayout, harr hty]
  refine ⟨{ L with
      hasRunDeferredInitialize := true
      layout := XRLayerLayout.stereoLeftRight
      needsRedraw := some true
      texturesMeta :=
        [⟨texId, L.colorFormat, L.viewPixelWidth * 2, L.viewPixelHeight, 1, L.textureType⟩]
      colorTextures := [texId] }, ?_, rfl, rfl, rfl, ?_⟩
  · have hke : ensureColorTextures ctx n bw bh L texId =
        allocateColorTexturesInternal ctx n L texId := by
      rcases hkind with h | h | h <;>
        simp [ensureColorTextures, h, hmedia, hempty]
    rw [hke]
    simp [allocateColorTexturesInternal, hn, initializeIfNeeded, hrun, hres, hgen]
  · intro eye sid sub hsub
    simp [buildSubImage] at hsub
    rcases hty : L.textureType with _ | _ <;>
      simp [hty] at hsub <;> simp [← hsub]

/-- Witness for C9: an unallocated stereo quad on a WebGL 2 two-view session
resolves to stereo-left-right with one 1024×512 texture. -/
theorem stereoLayer_resolved_leftRight_witness :
    ∃ L1,
      ensureColorTextures exCtx2 2 512 512
        { exQuad 1 10 with layout := XRLayerLayout.stereo,
                           hasRunDeferredInitialize := false,
                           colorTextures := [], texturesMeta := [] } 50 =
        ((L1, 51), Option.none) ∧
      L1.layout = XRLayerLayout.stereoLeftRight ∧
      L1.colorTextures = [50] ∧
      L1.texturesMeta = [⟨50, GL_RGBA, 512 * 2, 512, 1, XRTextureType.texture⟩] ∧
      (∀ (eye : XREye) (sid : Nat) (sub : SubImage),
        buildSubImage sid L1 eye = some sub →
        sub.colorTexture = some 50 ∧ sub.imageIndex = some 0) :=
  stereoLayer_resolved_leftRight exCtx2 2 512 512
    { exQuad 1 10 with layout := XRLayerLayout.stereo,
                       hasRunDeferredInitialize := false,
                       colorTextures := [], texturesMeta := [] } 50
    (Or.inl rfl) rfl rfl rfl rfl (by decide) (fun hcon => by cases hcon)

/-! ## getViewSubImage before any views exist (C10) -/

/-- C10 counterexample: on a session with an empty view list,
`getViewSubImage` does return a fresh default sub-image without throwing, but
its `textureWidth` and `textureHeight` are left unset (`undefined`), not
zero-initialized as the claim states (the constructor zero-initializes only
the viewport). -/
theorem getViewSubImage_no_views_dims_unset :
    (getViewSubImage exBinding 1 ⟨0, XREye.left, Option.none⟩
        { exState with session := { exSession with views := [] } }).2 =
      Except.ok (newSubImage 100) ∧
    (newSubImage 100).textureWidth = Option.none ∧
    ¬((newSubImage 100).textureWidth = some 0) ∧
    (newSubImage 100).textureHeight = Option.none ∧
    ¬((newSubImage 100).textureHeight = some 0) := by
  refine ⟨?_, rfl, ?_, rfl, ?_⟩
  · rfl
  · intro h
    cases h
  · intro h
    cases h

/-- C10 (amended): a `getViewSubImage` call on a binding whose session has an
empty view list (and no cached entry for that key) does not throw: it returns
a fresh default sub-image — no color or depth texture assigned, texture
dimensions and `imageIndex` unset, viewport zero-initialized — and changes
nothing in the state except consuming one sub-image identity: the layers
(hence every `needsRedraw` flag) and both caches are left unchanged. -/
theorem getViewSubImage_no_views (b : Binding) (lid : Nat) (view : XRView)
    (s : PolyfillState) (hviews : s.session.views = [])
    (hmiss : viewCacheLookup s.viewCache b.contextId lid view.vid = Option.none) :
    getViewSubImage b lid view s =
      ({ s with nextSubImageId := s.nextSubImageId + 1 },
       Except.ok (newSubImage s.nextSubImageId)) ∧
    (newSubImage s.nextSubImageId).colorTexture = Option.none ∧
    (newSubImage s.nextSubImageId).depthStencilTexture = Option.none ∧
    (newSubImage s.nextSubImageId).imageIndex = Option.none ∧
    (newSubImage s.nextSubImageId).textureWidth = Option.none ∧
    (newSubImage s.nextSubImageId).textureHeight = Option.none ∧
    (newSubImage s.nextSubImageId).viewport = ⟨0, 0, 0, 0⟩ := by
  refine ⟨?_, rfl, rfl, rfl, rfl, rfl, rfl⟩
  unfold getViewSubImage
  rw [hmiss]
  simp [hviews]

/-- Witness for C10: the concrete two-layer state with its view list
emptied. -/
theorem getViewSubImage_no_views_witness :
    getViewSubImage exBinding 1 ⟨0, XREye.left, Option.none⟩
      { exState with session := { exSession with views := [] } } =
      ({ { exState with session := { exSession with views := [] } } with
          nextSubImageId := 101 },
       Except.ok (newSubImage 100)) :=
  (getViewSubImage_no_views exBinding 1 ⟨0, XREye.left, Option.none⟩
    { exState with session := { exSession with views := [] } } rfl rfl).1

/-! ## Infrastructure: layer identity is never changed by the lazy getters -/

lemma initializeIfNeeded_lid (ctx : GLContext) (n : Nat) (L : LayerData) :
    ((initializeIfNeeded ctx n L).1).lid = L.lid := by
  unfold initializeIfNeeded
  split
  · rfl
  · dsimp only
    split <;> rfl

lemma allocateColorTexturesInternal_lid (ctx : GLContext) (n : Nat) (L : LayerData)
    (t : Nat) : (((allocateColorTexturesInternal ctx n L t).1).1).lid = L.lid := by
  have hinit := initializeIfNeeded_lid ctx n L
  unfold allocateColorTexturesInternal
  split
  · rfl
  · split
    next layer e heq =>
      rw [heq] at hinit
      exact hinit
    next layer heq =>
      rw [heq] at hinit
      repeat' split <;> (try exact hinit)

lemma allocateDepthStencilTexturesInternal_lid (ctx : GLContext) (L : LayerData)
    (t : Nat) : (((allocateDepthStencilTexturesInternal ctx L t).1).1).lid = L.lid := by
  unfold allocateDepthStencilTexturesInternal
  repeat' first | rfl | split

lemma allocateProjectionColorTextures_lid (ctx : GLContext) (n : Nat) (bw bh : ℚ)
    (L : LayerData) (t : Nat) :
    (((allocateProjectionColorTextures ctx n bw bh L t).1).1).lid = L.lid := by
  unfold allocateProjectionColorTextures
  repeat' first | rfl | split | dsimp only

lemma allocateProjectionDepthStencilTextures_lid (ctx : GLContext) (n : Nat) (bw bh : ℚ)
    (L : LayerData) (t : Nat) :
    (((allocateProjectionDepthStencilTextures ctx n bw bh L t).1).1).lid = L.lid := by
  unfold allocateProjectionDepthStencilTextures
  repeat' first | rfl | split | dsimp only

lemma ensureColorTextures_lid (ctx : GLContext) (n : Nat) (bw bh : ℚ)
    (L : LayerData) (t : Nat) :
    (((ensureColorTextures ctx n bw bh L t).1).1).lid = L.lid := by
  have h1 := allocateColorTexturesInternal_lid ctx n L t
  have h2 := allocateProjectionColorTextures_lid ctx n bw bh L t
  unfold ensureColorTextures
  repeat' first | rfl | exact h1 | exact h2 | split

lemma ensureDepthStencilTextures_lid (ctx : GLContext) (n : Nat) (bw bh : ℚ)
    (L : LayerData) (t : Nat) :
    (((ensureDepthStencilTextures ctx n bw bh L t).1).1).lid = L.lid := by
  have h1 := allocateDepthStencilTexturesInternal_lid ctx L t
  have h2 := allocateProjectionDepthStencilTextures_lid ctx n bw bh L t
  unfold ensureDepthStencilTextures
  repeat' first | rfl | exact h1 | exact h2 | split

/-! ## Infrastructure: the layer heap -/

/-- A well-formed heap stores every layer object under its own identity. -/
def HeapWF (layers : Nat → Option LayerData) : Prop :=
  ∀ lid L, layers lid = some L → L.lid = lid

lemma updateLayer_idem (layers : Nat → Option LayerData) (L : LayerData) :
    updateLayer (updateLayer layers L) L = updateLayer layers L := by
  funext x
  unfold updateLayer
  by_cases h : x = L.lid <;> simp [h]

lemma findLayer_updateLayer_self (layers : Nat → Option LayerData) (L : LayerData) :
    findLayer (updateLayer layers L) L.lid = some L := by
  simp [findLayer, updateLayer]

lemma findLayer_updateLayer_ne (layers : Nat → Option LayerData) (L : LayerData)
    (l : Nat) (h : l ≠ L.lid) :
    findLayer (updateLayer layers L) l = findLayer layers l := by
  simp [findLayer, updateLayer, h]

lemma heapWF_updateLayer (layers : Nat → Option LayerData) (L : LayerData)
    (hwf : HeapWF layers) : HeapWF (updateLayer layers L) := by
  intro lid X h
  unfold updateLayer at h
  by_cases hl : lid = L.lid
  · rw [if_pos hl] at h
    cases h
    exact hl.symm
  · rw [if_neg hl] at h
    exact hwf lid X h

/-! ## Infrastructure: the per-context single-slot sub-image cache -/

lemma cacheLookup_cacheSet_same (cache : List (Nat × Nat × XREye × SubImage))
    (ctxId lid : Nat) (eye : XREye) (sub : SubImage) :
    cacheLookup (cacheSet cache ctxId lid eye sub) ctxId lid eye = some sub := by
  simp [cacheLookup, cacheSet]

lemma cacheLookup_cacheSet_other (cache : List (Nat × Nat × XREye × SubImage))
    (ctxId lid lid2 : Nat) (eye eye2 : XREye) (sub : SubImage)
    (h : ¬(lid = lid2 ∧ eye = eye2)) :
    cacheLookup (cacheSet cache ctxId lid eye sub) ctxId lid2 eye2 = Option.none := by
  simp [cacheLookup, cacheSet, h]

/-! ## Infrastructure: stable layers make the lazy getters no-ops -/

/-- A layer whose lazy getters are no-ops: either a cube layer (whose getters
are the plain field reads), or a non-media layer with color textures
allocated and either no depth format requested or depth textures allocated.
Every layer that has just served a successful `getSubImage` computation is in
this state. -/
def StableLayer (L : LayerData) : Prop :=
  L.kind = LayerKind.cube ∨
  (L.isMedia = false ∧ L.colorTextures ≠ [] ∧
    (L.depthFormat = 0 ∨ L.depthStencilTextures ≠ []))

lemma update_depth_empty (L : LayerData) (h : L.depthStencilTextures = []) :
    ({ L with depthStencilTextures := [] } : LayerData) = L := by
  cases L
  simp_all

lemma ensureColorTextures_stable (ctx : GLContext) (n : Nat) (bw bh : ℚ)
    (L : LayerData) (t : Nat) (h : StableLayer L) :
    ensureColorTextures ctx n bw bh L t = ((L, t), Option.none) := by
  unfold ensureColorTextures
  split
  · rfl
  · rcases h with hcube | ⟨hm, hc, _⟩
    · simp_all
    · rw [if_neg hc]
  · next hk1 hk2 =>
    rcases h with hcube | ⟨hm, hc, _⟩
    · exact (hk1 hcube).elim
    · rw [if_neg (by rw [hm]; simp : ¬L.isMedia = true), if_neg hc]

lemma ensureDepthStencilTextures_stable (ctx : GLContext) (n : Nat) (bw bh : ℚ)
    (L : LayerData) (t : Nat) (h : StableLayer L) :
    ensureDepthStencilTextures ctx n bw bh L t = ((L, t), Option.none) := by
  unfold ensureDepthStencilTextures
  split
  · rfl
  · obtain ⟨hm, _, hd⟩ : L.isMedia = false ∧ L.colorTextures ≠ [] ∧
        (L.depthFormat = 0 ∨ L.depthStencilTextures ≠ []) := by
      rcases h with hcube | h
      · simp_all
      · exact h
    by_cases hdep : L.depthStencilTextures = []
    · rw [if_pos hdep]
      rcases hd with hd0 | hdne
      · unfold allocateProjectionDepthStencilTextures
        by_cases hn : n = 0
        · rw [if_pos hn]
        · rw [if_neg hn, if_pos hd0, update_depth_empty L hdep]
      · exact absurd hdep hdne
    · rw [if_neg hdep]
  · next hk1 hk2 =>
    obtain ⟨hm, _, hd⟩ : L.isMedia = false ∧ L.colorTextures ≠ [] ∧
        (L.depthFormat = 0 ∨ L.depthStencilTextures ≠ []) := by
      rcases h with hcube | h
      · exact (hk1 hcube).elim
      · exact h
    rw [if_neg (by rw [hm]; simp : ¬L.isMedia = true)]
    by_cases hdep : L.depthStencilTextures = []
    · rw [if_pos hdep]
      rcases hd with hd0 | hdne
      · unfold allocateDepthStencilTexturesInternal
        rw [if_pos hd0, update_depth_empty L hdep]
      · exact absurd hdep hdne
    · rw [if_neg hdep]

/-! ## Infrastructure: the computed sub-image is a function of layer and eye -/

lemma buildSubImage_content (sid1 sid2 : Nat) (L : LayerData) (eye : XREye)
    (sub1 sub2 : SubImage) (h1 : buildSubImage sid1 L eye = some sub1)
    (h2 : buildSubImage sid2 L eye = some sub2) : sub2.sameContent sub1 := by
  unfold buildSubImage at h1 h2
  dsimp only at h1 h2
  rcases hmeta : L.texturesMeta.get?
      (if L.textureType = XRTextureType.texture then
        (if L.layout = XRLayerLayout.stereo ∧ eye = XREye.right then 1 else 0)
      else 0) with _ | meta
  · rw [hmeta] at h1
    simp at h1
  · rw [hmeta] at h1 h2
    simp only [Option.some.injEq] at h1 h2
    rw [← h1, ← h2]
    simp [SubImage.sameContent]

/-! ## Infrastructure: what the lazy getters can and cannot change -/

lemma determineLayoutAttribute_ne_default (ty : XRTextureType) (ctx : GLContext)
    (n : Nat) (l l2 : XRLayerLayout) (hl : l ≠ XRLayerLayout.default)
    (h : determineLayoutAttribute ty ctx n l = Except.ok l2) :
    l2 ≠ XRLayerLayout.default := by
  unfold determineLayoutAttribute at h
  split at h
  · exact Except.noConfusion h
  split at h
  · injection h with h
    subst h
    assumption
  split at h
  · injection h with h
    subst h
    decide
  split at h
  next hcond =>
    exact absurd hcond.1 hl
  split at h
  · injection h with h
    subst h
    decide
  · injection h with h
    subst h
    assumption

/-- The deferred initialization either leaves the layout alone or replaces it
with the value `determineLayoutAttribute` resolved. -/
lemma initializeIfNeeded_layout (ctx : GLContext) (n : Nat) (L : LayerData) :
    ((initializeIfNeeded ctx n L).1).layout = L.layout ∨
    determineLayoutAttribute L.textureType ctx n L.layout =
      Except.ok (((initializeIfNeeded ctx n L).1).layout) := by
  unfold initializeIfNeeded
  split
  · exact Or.inl rfl
  · dsimp only
    split
    · exact Or.inl rfl
    next l2 heq => exact Or.inr heq

lemma allocateColorTexturesInternal_layout (ctx : GLContext) (n : Nat)
    (L : LayerData) (t : Nat) :
    (((allocateColorTexturesInternal ctx n L t).1).1).layout = L.layout ∨
    determineLayoutAttribute L.textureType ctx n L.layout =
      Except.ok ((((allocateColorTexturesInternal ctx n L t).1).1).layout) := by
  have hspec := initializeIfNeeded_layout ctx n L
  unfold allocateColorTexturesInternal
  split
  · exact Or.inl rfl
  split
  next layer e heq =>
    rw [heq] at hspec
    exact hspec
  next layer heq =>
    rw [heq] at hspec
    repeat' first | exact hspec | split | dsimp only

lemma ensureColorTextures_layout (ctx : GLContext) (n : Nat) (bw bh : ℚ)
    (L : LayerData) (t : Nat) :
    (((ensureColorTextures ctx n bw bh L t).1).1).layout = L.layout ∨
    determineLayoutAttribute L.textureType ctx n L.layout =
      Except.ok ((((ensureColorTextures ctx n bw bh L t).1).1).layout) := by
  have h1 := allocateColorTexturesInternal_layout ctx n L t
  have h2 : (((allocateProjectionColorTextures ctx n bw bh L t).1).1).layout =
      L.layout := by
    unfold allocateProjectionColorTextures
    repeat' first | rfl | split | dsimp only
  unfold ensureColorTextures
  repeat' first | exact Or.inl rfl | exact h1 | exact Or.inl h2 | split

/-- The tuple of every layer field except `depthStencilTextures`. -/
def depthUntouched (L : LayerData) :=
  (L.lid, L.kind, L.isMedia, L.layout, L.textureType, L.isStatic, L.needsRedraw,
   L.hasRunDeferredInitialize, L.viewPixelWidth, L.viewPixelHeight, L.colorFormat,
   L.depthFormat, L.mipLevels, L.scaleFactor, L.colorTextures, L.texturesMeta,
   L.sessionId, L.contextId)

lemma allocateDepthStencilTexturesInternal_preserves (ctx : GLContext)
    (L : LayerData) (t : Nat) :
    depthUntouched (((allocateDepthStencilTexturesInternal ctx L t).1).1) =
      depthUntouched L := by
  unfold depthUntouched allocateDepthStencilTexturesInternal
  repeat' first | rfl | split | dsimp only

lemma allocateProjectionDepthStencilTextures_preserves (ctx : GLContext) (n : Nat)
    (bw bh : ℚ) (L : LayerData) (t : Nat) :
    depthUntouched (((allocateProjectionDepthStencilTextures ctx n bw bh L t).1).1) =
      depthUntouched L := by
  unfold depthUntouched allocateProjectionDepthStencilTextures
  repeat' first | rfl | split | dsimp only

/-- The depth getter only ever writes the `depthStencilTextures` field. -/
lemma ensureDepthStencilTextures_preserves (ctx : GLContext) (n : Nat) (bw bh : ℚ)
    (L : LayerData) (t : Nat) :
    depthUntouched (((ensureDepthStencilTextures ctx n bw bh L t).1).1) =
      depthUntouched L := by
  have h1 := allocateDepthStencilTexturesInternal_preserves ctx L t
  have h2 := allocateProjectionDepthStencilTextures_preserves ctx n bw bh L t
  unfold ensureDepthStencilTextures
  repeat' first | rfl | exact h1 | exact h2 | split

/-- The tuple of every layer field except the deferred-initialization flag,
the layout, `needsRedraw` and the color texture arrays. -/
def colorUntouched (L : LayerData) :=
  (L.lid, L.kind, L.isMedia, L.textureType, L.isStatic, L.viewPixelWidth,
   L.viewPixelHeight, L.colorFormat, L.depthFormat, L.mipLevels, L.scaleFactor,
   L.depthStencilTextures, L.sessionId, L.contextId)

lemma initializeIfNeeded_preserves (ctx : GLContext) (n : Nat) (L : LayerData) :
    colorUntouched ((initializeIfNeeded ctx n L).1) = colorUntouched L := by
  unfold colorUntouched initializeIfNeeded
  split
  · rfl
  · dsimp only
    split <;> rfl

lemma allocateColorTexturesInternal_preserves (ctx : GLContext) (n : Nat)
    (L : LayerData) (t : Nat) :
    colorUntouched (((allocateColorTexturesInternal ctx n L t).1).1) =
      colorUntouched L := by
  have hinit := initializeIfNeeded_preserves ctx n L
  unfold allocateColorTexturesInternal
  split
  · rfl
  · split
    next layer e heq =>
      rw [heq] at hinit
      exact hinit
    next layer heq =>
      rw [heq] at hinit
      repeat' split <;> (try exact hinit)

lemma allocateProjectionColorTextures_preserves (ctx : GLContext) (n : Nat)
    (bw bh : ℚ) (L : LayerData) (t : Nat) :
    colorUntouched (((allocateProjectionColorTextures ctx n bw bh L t).1).1) =
      colorUntouched L := by
  unfold colorUntouched allocateProjectionColorTextures
  repeat' first | rfl | split | dsimp only

/-- The color getter only ever writes the deferred-initialization flag, the
layout, `needsRedraw` and the color texture arrays. -/
lemma ensureColorTextures_preserves (ctx : GLContext) (n : Nat) (bw bh : ℚ)
    (L : LayerData) (t : Nat) :
    colorUntouched (((ensureColorTextures ctx n bw bh L t).1).1) =
      colorUntouched L := by
  have h1 := allocateColorTexturesInternal_preserves ctx n L t
  have h2 := allocateProjectionColorTextures_preserves ctx n bw bh L t
  unfold ensureColorTextures
  repeat' first | rfl | exact h1 | exact h2 | split

/-- A color getter that returned without throwing, on a quad, cylinder or
equirect layer, was not called on a media layer. -/
lemma ensureColorTextures_ok_media (ctx : GLContext) (n : Nat) (bw bh : ℚ)
    (L X : LayerData) (t t2 : Nat)
    (hk1 : L.kind ≠ LayerKind.cube) (hk2 : L.kind ≠ LayerKind.projection)
    (heq : ensureColorTextures ctx n bw bh L t = ((X, t2), Option.none)) :
    L.isMedia = false := by
  unfold ensureColorTextures at heq
  split at heq
  next hcube => exact absurd hcube hk1
  next hproj => exact absurd hproj hk2
  · split at heq
    next hmedia =>
      injection heq with heq1 heq2
      exact Option.noConfusion heq2
    next hmedia =>
      simpa using hmedia

/-- A depth getter that returned without throwing, on a non-media quad,
cylinder or equirect layer whose layout is not `"default"`, leaves the layer
with either no depth format or a non-empty depth texture list. -/
lemma ensureDepthStencilTextures_ok_tail (ctx : GLContext) (n : Nat) (bw bh : ℚ)
    (layer layer3 : LayerData) (t t3 : Nat)
    (hk1 : layer.kind ≠ LayerKind.cube) (hk2 : layer.kind ≠ LayerKind.projection)
    (hmedia : layer.isMedia = false)
    (hlayout : layer.layout ≠ XRLayerLayout.default)
    (heq : ensureDepthStencilTextures ctx n bw bh layer t = ((layer3, t3), Option.none)) :
    layer3.depthFormat = 0 ∨ layer3.depthStencilTextures ≠ [] := by
  unfold ensureDepthStencilTextures at heq
  split at heq
  next hcube => exact absurd hcube hk1
  next hproj => exact absurd hproj hk2
  rw [if_neg (by rw [hmedia]; simp : ¬layer.isMedia = true)] at heq
  by_cases hdep : layer.depthStencilTextures = []
  · rw [if_pos hdep] at heq
    unfold allocateDepthStencilTexturesInternal at heq
    split at heq
    next hfmt =>
      injection heq with heq1 heq2
      injection heq1 with heqL heqT
      subst heqL
      exact Or.inl hfmt
    split at heq
    · injection heq with heq1 heq2
      exact Option.noConfusion heq2
    split at heq
    · injection heq with heq1 heq2
      exact Option.noConfusion heq2
    repeat' split at heq
    any_goals (injection heq with heq1 heq2; exact Option.noConfusion heq2)
    any_goals
      (injection heq with heq1 heq2
       injection heq1 with heqL heqT
       subst heqL
       simp)
    · exfalso
      rcases hla : layer.layout <;> simp_all
  · rw [if_neg hdep] at heq
    injection heq with heq1 heq2
    injection heq1 with heqL heqT
    subst heqL
    exact Or.inr hdep

/-! ## Infrastructure: characterizing getSubImage runs -/

lemma getSubImage_cache_hit (b : Binding) (f lid : Nat) (eye : XREye)
    (s : PolyfillState) (L : LayerData) (sub : SubImage)
    (hfind : findLayer s.layers lid = some L)
    (hgate : ¬(L.isStatic = true ∧ L.needsRedraw = some false))
    (hhit : cacheLookup s.cache b.contextId lid eye = some sub) :
    getSubImage b f lid eye s = (s, Except.ok sub) := by
  unfold getSubImage
  rw [hfind]
  dsimp only
  rw [if_neg hgate, hhit]

lemma getSubImage_stable_ok (b : Binding) (f lid : Nat) (eye : XREye)
    (s : PolyfillState) (L : LayerData) (sub : SubImage)
    (hfind : findLayer s.layers lid = some L)
    (hstable : StableLayer L)
    (hmiss : cacheLookup s.cache b.contextId lid eye = Option.none)
    (hproj : ¬L.kind = LayerKind.projection)
    (hdef : ¬L.layout = XRLayerLayout.default)
    (hsess : f = L.sessionId ∧ b.sessionId = L.sessionId ∧ b.contextId = L.contextId)
    (hgate : ¬(L.isStatic = true ∧ L.needsRedraw = some false))
    (hcolor : L.colorTextures ≠ [])
    (heye : ¬(L.layout = XRLayerLayout.stereo ∧ eye = XREye.none))
    (hbuild : buildSubImage s.nextSubImageId L eye = some sub) :
    getSubImage b f lid eye s =
      ({ session := { s.session with taskQueue := s.session.taskQueue ++ [lid] }
         layers := updateLayer s.layers L
         cache := cacheSet s.cache b.contextId lid eye sub
         viewCache := s.viewCache
         nextSubImageId := s.nextSubImageId + 1
         nextTextureId := s.nextTextureId }, Except.ok sub) := by
  unfold getSubImage
  rw [hfind]
  dsimp only
  rw [if_neg hgate, hmiss]
  dsimp only
  rw [if_neg hproj, if_neg hdef, if_neg (not_not_intro hsess)]
  rw [ensureColorTextures_stable _ _ _ _ _ _ hstable]
  dsimp only
  rw [if_neg hcolor, if_neg hgate, if_neg heye]
  rw [ensureDepthStencilTextures_stable _ _ _ _ _ _ hstable]
  dsimp only
  rw [hbuild]
  dsimp only
  rw [updateLayer_idem]

/-- Any single `getSubImage` call touches only the layer it was given (and
leaves even that one unchanged when it is stable), keeps the heap
well-formed, and either leaves the cache alone or overwrites the binding's
per-context slot with its own key and the sub-image it returned. -/
lemma getSubImage_effects (b : Binding) (f lid2 : Nat) (eye2 : XREye)
    (s s2 : PolyfillState) (r : Except JSError SubImage)
    (hwf : HeapWF s.layers) (hres : getSubImage b f lid2 eye2 s = (s2, r)) :
    (∀ l, l ≠ lid2 → findLayer s2.layers l = findLayer s.layers l) ∧
    HeapWF s2.layers ∧
    s2.session.views = s.session.views ∧
    (s2.cache = s.cache ∨
      ∃ sub, r = Except.ok sub ∧
        s2.cache = cacheSet s.cache b.contextId lid2 eye2 sub ∧
        (∀ X, findLayer s.layers lid2 = some X → StableLayer X →
          buildSubImage s.nextSubImageId X eye2 = some sub)) ∧
    (∀ X, findLayer s.layers lid2 = some X → StableLayer X →
      findLayer s2.layers lid2 = some X) := by
  unfold getSubImage at hres
  obtain hL | ⟨L, hL⟩ : findLayer s.layers lid2 = Option.none ∨
      ∃ L, findLayer s.layers lid2 = some L := by
    cases findLayer s.layers lid2
    · exact Or.inl rfl
    · exact Or.inr ⟨_, rfl⟩
  · rw [hL] at hres
    dsimp only at hres
    injection hres with h1 h2
    subst h1
    refine ⟨fun l _ => rfl, hwf, rfl, Or.inl rfl, fun X hX _ => hX⟩
  have hlid : L.lid = lid2 := hwf lid2 L hL
  rw [hL] at hres
  dsimp only at hres
  split at hres
  · injection hres with h1 h2
    subst h1
    refine ⟨fun l _ => rfl, hwf, rfl, Or.inl rfl, fun X hX _ => hX⟩
  split at hres
  next existing hhit =>
    injection hres with h1 h2
    subst h1
    refine ⟨fun l _ => rfl, hwf, rfl, Or.inl rfl, fun X hX _ => hX⟩
  split at hres
  · injection hres with h1 h2
    subst h1
    refine ⟨fun l _ => rfl, hwf, rfl, Or.inl rfl, fun X hX _ => hX⟩
  split at hres
  · injection hres with h1 h2
    subst h1
    refine ⟨fun l _ => rfl, hwf, rfl, Or.inl rfl, fun X hX _ => hX⟩
  split at hres
  · injection hres with h1 h2
    subst h1
    refine ⟨fun l _ => rfl, hwf, rfl, Or.inl rfl, fun X hX _ => hX⟩
  split at hres
  next layer texId e heq =>
    -- the lazy colorTextures getter threw after possibly mutating the layer
    have hlid2 : layer.lid = lid2 := by
      have h1 := ensureColorTextures_lid b.ctx s.session.views.length
        s.session.baseWidth s.session.baseHeight L s.nextTextureId
      rw [heq] at h1
      exact h1.trans hlid
    injection hres with h1 h2
    subst h1
    refine ⟨?_, ?_, rfl, Or.inl rfl, ?_⟩
    · intro l hl
      exact findLayer_updateLayer_ne _ _ _ (by rw [hlid2]; exact hl)
    · exact heapWF_updateLayer _ _ hwf
    · intro X hX hstab
      rw [hL] at hX
      injection hX with hX
      subst hX
      rw [ensureColorTextures_stable _ _ _ _ _ _ hstab] at heq
      simp at heq
  next layer texId heq =>
  have hlid2 : layer.lid = lid2 := by
    have h1 := ensureColorTextures_lid b.ctx s.session.views.length
      s.session.baseWidth s.session.baseHeight L s.nextTextureId
    rw [heq] at h1
    exact h1.trans hlid
  have hwf2 : HeapWF (updateLayer s.layers layer) := heapWF_updateLayer _ _ hwf
  have hpres : ∀ l, l ≠ lid2 →
      findLayer (updateLayer s.layers layer) l = findLayer s.layers l := by
    intro l hl
    exact findLayer_updateLayer_ne _ _ _ (by rw [hlid2]; exact hl)
  have hstabL : ∀ X, findLayer s.layers lid2 = some X → StableLayer X →
      findLayer (updateLayer s.layers layer) lid2 = some X := by
    intro X hX hstab
    rw [hL] at hX
    injection hX with hX
    subst hX
    rw [ensureColorTextures_stable _ _ _ _ _ _ hstab] at heq
    injection heq with heq1 heq2
    injection heq1 with heqL heqT
    rw [← heqL, ← hlid]
    exact findLayer_updateLayer_self s.layers L
  split at hres
  · injection hres with h1 h2
    subst h1
    exact ⟨hpres, hwf2, rfl, Or.inl rfl, hstabL⟩
  split at hres
  · injection hres with h1 h2
    subst h1
    exact ⟨hpres, hwf2, rfl, Or.inl rfl, hstabL⟩
  split at hres
  · injection hres with h1 h2
    subst h1
    exact ⟨hpres, hwf2, rfl, Or.inl rfl, hstabL⟩
  split at hres
  next layer3 texId3 e3 heq3 =>
    have hlid3 : layer3.lid = lid2 := by
      have h1 := ensureDepthStencilTextures_lid b.ctx s.session.views.length
        s.session.baseWidth s.session.baseHeight layer texId
      rw [heq3] at h1
      exact h1.trans hlid2
    injection hres with h1 h2
    subst h1
    refine ⟨?_, ?_, rfl, Or.inl rfl, ?_⟩
    · intro l hl
      rw [findLayer_updateLayer_ne _ _ _ (by rw [hlid3]; exact hl)]
      exact hpres l hl
    · exact heapWF_updateLayer _ _ hwf2
    · intro X hX hstab
      have hXeq := hX
      rw [hL] at hXeq
      injection hXeq with hXeq
      subst hXeq
      rw [ensureColorTextures_stable _ _ _ _ _ _ hstab] at heq
      injection heq with heq1 heq2
      injection heq1 with heqL heqT
      rw [← heqL] at heq3
      rw [ensureDepthStencilTextures_stable _ _ _ _ _ _ hstab] at heq3
      simp at heq3
  next layer3 texId3 heq3 =>
  have hlid3 : layer3.lid = lid2 := by
    have h1 := ensureDepthStencilTextures_lid b.ctx s.session.views.length
      s.session.baseWidth s.session.baseHeight layer texId
    rw [heq3] at h1
    exact h1.trans hlid2
  have hwf3 : HeapWF (updateLayer (updateLayer s.layers layer) layer3) :=
    heapWF_updateLayer _ _ hwf2
  have hpres3 : ∀ l, l ≠ lid2 →
      findLayer (updateLayer (updateLayer s.layers layer) layer3) l =
        findLayer s.layers l := by
    intro l hl
    rw [findLayer_updateLayer_ne _ _ _ (by rw [hlid3]; exact hl)]
    exact hpres l hl
  have hstabL3 : ∀ X, findLayer s.layers lid2 = some X → StableLayer X →
      findLayer (updateLayer (updateLayer s.layers layer) layer3) lid2 = some X := by
    intro X hX hstab
    have hXeq := hX
    rw [hL] at hXeq
    injection hXeq with hXeq
    subst hXeq
    rw [ensureColorTextures_stable _ _ _ _ _ _ hstab] at heq
    injection heq with heq1 heq2
    injection heq1 with heqL heqT
    rw [← heqL] at heq3 ⊢
    rw [ensureDepthStencilTextures_stable _ _ _ _ _ _ hstab] at heq3
    injection heq3 with heq31 heq32
    injection heq31 with heqL3 heqT3
    rw [← heqL3, ← hlid]
    exact findLayer_updateLayer_self _ L
  split at hres
  · injection hres with h1 h2
    subst h1
    exact ⟨hpres3, hwf3, rfl, Or.inl rfl, hstabL3⟩
  next sub hbuild =>
    injection hres with h1 h2
    subst h1
    subst h2
    refine ⟨hpres3, hwf3, rfl, Or.inr ⟨sub, rfl, rfl, ?_⟩, hstabL3⟩
    intro X hX hstab
    rw [hL] at hX
    injection hX with hX
    subst hX
    rw [ensureColorTextures_stable _ _ _ _ _ _ hstab] at heq
    injection heq with heq1 heq2
    injection heq1 with heqL heqT
    rw [← heqL] at heq3
    rw [ensureDepthStencilTextures_stable _ _ _ _ _ _ hstab] at heq3
    injection heq3 with heq31 heq32
    injection heq31 with heqL3 heqT3
    rw [← heqL3] at hbuild
    exact hbuild

/-- Inverting a successful cache-miss `getSubImage` call: the layer it
served is left in the heap fully allocated and stable, every check the call
performed still holds of it, the returned sub-image is the one computed from
it, and it now sits in the binding's cache slot. -/
lemma getSubImage_ok_inversion (b : Binding) (f lid : Nat) (eye : XREye)
    (s s1 : PolyfillState) (sub1 : SubImage)
    (hwf : HeapWF s.layers)
    (hmiss : cacheLookup s.cache b.contextId lid eye = Option.none)
    (hres : getSubImage b f lid eye s = (s1, Except.ok sub1)) :
    ∃ L1, findLayer s1.layers lid = some L1 ∧ L1.lid = lid ∧ StableLayer L1 ∧
      HeapWF s1.layers ∧
      ¬L1.kind = LayerKind.projection ∧
      ¬L1.layout = XRLayerLayout.default ∧
      (f = L1.sessionId ∧ b.sessionId = L1.sessionId ∧ b.contextId = L1.contextId) ∧
      ¬(L1.isStatic = true ∧ L1.needsRedraw = some false) ∧
      L1.colorTextures ≠ [] ∧
      ¬(L1.layout = XRLayerLayout.stereo ∧ eye = XREye.none) ∧
      buildSubImage s.nextSubImageId L1 eye = some sub1 ∧
      cacheLookup s1.cache b.contextId lid eye = some sub1 := by
  unfold getSubImage at hres
  obtain hL | ⟨L, hL⟩ : findLayer s.layers lid = Option.none ∨
      ∃ L, findLayer s.layers lid = some L := by
    cases findLayer s.layers lid
    · exact Or.inl rfl
    · exact Or.inr ⟨_, rfl⟩
  · rw [hL] at hres
    dsimp only at hres
    injection hres with h1 h2
    exact Except.noConfusion h2
  have hlid : L.lid = lid := hwf lid L hL
  rw [hL] at hres
  dsimp only at hres
  split at hres
  · injection hres with h1 h2
    exact Except.noConfusion h2
  rw [hmiss] at hres
  dsimp only at hres
  split at hres
  · injection hres with h1 h2
    exact Except.noConfusion h2
  next hproj =>
  split at hres
  · injection hres with h1 h2
    exact Except.noConfusion h2
  next hdef =>
  split at hres
  · injection hres with h1 h2
    exact Except.noConfusion h2
  next hsess =>
  have hsess' : f = L.sessionId ∧ b.sessionId = L.sessionId ∧
      b.contextId = L.contextId := not_not.mp hsess
  split at hres
  next layer texId e heqC =>
    injection hres with h1 h2
    exact Except.noConfusion h2
  next layer texId heqC =>
  have hcu : colorUntouched layer = colorUntouched L := by
    have h := ensureColorTextures_preserves b.ctx s.session.views.length
      s.session.baseWidth s.session.baseHeight L s.nextTextureId
    rw [heqC] at h
    exact h
  simp only [colorUntouched, Prod.mk.injEq] at hcu
  obtain ⟨hc1, hc2, hc3, hc4, hc5, hc6, hc7, hc8, hc9, hc10, hc11, hc12,
    hc13, hc14⟩ := hcu
  have hlayoutLayer : ¬layer.layout = XRLayerLayout.default := by
    have h := ensureColorTextures_layout b.ctx s.session.views.length
      s.session.baseWidth s.session.baseHeight L s.nextTextureId
    rw [heqC] at h
    rcases h with h | h
    · rw [h]
      exact hdef
    · exact determineLayoutAttribute_ne_default _ _ _ _ _ hdef h
  split at hres
  · injection hres with h1 h2
    exact Except.noConfusion h2
  next hcolor =>
  split at hres
  · injection hres with h1 h2
    exact Except.noConfusion h2
  next hgate2 =>
  split at hres
  · injection hres with h1 h2
    exact Except.noConfusion h2
  next heye =>
  split at hres
  next layer3 texId3 e3 heqD =>
    injection hres with h1 h2
    exact Except.noConfusion h2
  next layer3 texId3 heqD =>
  have hdu : depthUntouched layer3 = depthUntouched layer := by
    have h := ensureDepthStencilTextures_preserves b.ctx s.session.views.length
      s.session.baseWidth s.session.baseHeight layer texId
    rw [heqD] at h
    exact h
  simp only [depthUntouched, Prod.mk.injEq] at hdu
  obtain ⟨hd1, hd2, hd3, hd4, hd5, hd6, hd7, hd8, hd9, hd10, hd11, hd12,
    hd13, hd14, hd15, hd16, hd17, hd18⟩ := hdu
  split at hres
  · injection hres with h1 h2
    exact Except.noConfusion h2
  next sub hb =>
  injection hres with h1 h2
  injection h2 with h2
  subst h2
  subst h1
  have hl3 : layer3.lid = lid := by rw [hd1, hc1, hlid]
  have hstab3 : StableLayer layer3 := by
    by_cases hcube : L.kind = LayerKind.cube
    · exact Or.inl (by rw [hd2, hc2, hcube])
    · have hmediaL : L.isMedia = false :=
        ensureColorTextures_ok_media b.ctx s.session.views.length
          s.session.baseWidth s.session.baseHeight L layer s.nextTextureId texId
          hcube hproj heqC
      refine Or.inr ⟨by rw [hd3, hc3, hmediaL], by rw [hd15]; exact hcolor, ?_⟩
      exact ensureDepthStencilTextures_ok_tail b.ctx s.session.views.length
        s.session.baseWidth s.session.baseHeight layer layer3 texId texId3
        (by rw [hc2]; exact hcube) (by rw [hc2]; exact hproj)
        (by rw [hc3]
            exact ensureColorTextures_ok_media b.ctx s.session.views.length
              s.session.baseWidth s.session.baseHeight L layer s.nextTextureId texId
              hcube hproj heqC)
        hlayoutLayer heqD
  refine ⟨layer3, ?_, hl3, hstab3, ?_, ?_, ?_, ?_, ?_, ?_, ?_, hb, ?_⟩
  · have h := findLayer_updateLayer_self (updateLayer s.layers layer) layer3
    rw [hl3] at h
    exact h
  · exact heapWF_updateLayer _ _ (heapWF_updateLayer _ _ hwf)
  · rw [hd2, hc2]
    exact hproj
  · rw [hd4]
    exact hlayoutLayer
  · rw [hd17, hc13, hd18, hc14]
    exact hsess'
  · rw [hd6, hd7]
    exact hgate2
  · rw [hd15]
    exact hcolor
  · rw [hd4]
    exact heye
  · exact cacheLookup_cacheSet_same _ _ _ _ _

lemma SubImage.sameContent_refl (a : SubImage) : a.sameContent a :=
  ⟨rfl, rfl, rfl, rfl, rfl, rfl⟩

/-- Whether `buildSubImage` succeeds does not depend on the identity counter. -/
lemma buildSubImage_some (sid1 sid2 : Nat) (L : LayerData) (eye : XREye)
    (sub1 : SubImage) (h : buildSubImage sid1 L eye = some sub1) :
    ∃ sub2, buildSubImage sid2 L eye = some sub2 := by
  unfold buildSubImage at h ⊢
  dsimp only at h ⊢
  obtain hmeta | ⟨meta, hmeta⟩ :
      L.texturesMeta.get?
        (if L.textureType = XRTextureType.texture then
          (if L.layout = XRLayerLayout.stereo ∧ eye = XREye.right then 1 else 0)
        else 0) = Option.none ∨
      ∃ meta, L.texturesMeta.get?
        (if L.textureType = XRTextureType.texture then
          (if L.layout = XRLayerLayout.stereo ∧ eye = XREye.right then 1 else 0)
        else 0) = some meta := by
    cases L.texturesMeta.get?
        (if L.textureType = XRTextureType.texture then
          (if L.layout = XRLayerLayout.stereo ∧ eye = XREye.right then 1 else 0)
        else 0)
    · exact Or.inl rfl
    · exact Or.inr ⟨_, rfl⟩
  · rw [hmeta] at h
    simp at h
  · rw [hmeta]
    exact ⟨_, rfl⟩

/-- The invariant a frame maintains for one already-served (layer, eye) key:
the heap stays well-formed, the served layer object is still in place, and
whatever the binding's cache slot holds under that key has the content of the
first call's result. -/
def FrameInv (b : Binding) (lid : Nat) (eye : XREye) (L1 : LayerData)
    (sub1 : SubImage) (s : PolyfillState) : Prop :=
  HeapWF s.layers ∧
  findLayer s.layers lid = some L1 ∧
  (∀ sub, cacheLookup s.cache b.contextId lid eye = some sub → sub.sameContent sub1)

lemma frameInv_step (b : Binding) (f lid : Nat) (eye : XREye) (L1 : LayerData)
    (sub1 : SubImage) (sid0 : Nat)
    (hstable : StableLayer L1) (hbuild0 : buildSubImage sid0 L1 eye = some sub1)
    (lid2 : Nat) (eye2 : XREye) (s s2 : PolyfillState) (r : Except JSError SubImage)
    (hinv : FrameInv b lid eye L1 sub1 s)
    (hres : getSubImage b f lid2 eye2 s = (s2, r)) :
    FrameInv b lid eye L1 sub1 s2 := by
  obtain ⟨hwf, hfind, hcache⟩ := hinv
  obtain ⟨hpres, hwf2, hviews, hcacheAlt, hstabPres⟩ :=
    getSubImage_effects b f lid2 eye2 s s2 r hwf hres
  refine ⟨hwf2, ?_, ?_⟩
  · by_cases hl : lid2 = lid
    · subst hl
      exact hstabPres L1 hfind hstable
    · rw [hpres lid (fun h => hl h.symm)]
      exact hfind
  · intro sub hsub
    rcases hcacheAlt with hsame | ⟨subw, hr, hceq, hbuildw⟩
    · rw [hsame] at hsub
      exact hcache sub hsub
    · rw [hceq] at hsub
      by_cases hk : lid2 = lid ∧ eye2 = eye
      · obtain ⟨hk1, hk2⟩ := hk
        subst hk1
        subst hk2
        rw [cacheLookup_cacheSet_same] at hsub
        injection hsub with hsub
        rw [← hsub]
        exact buildSubImage_content sid0 s.nextSubImageId L1 eye2 sub1 subw hbuild0
          (hbuildw L1 hfind hstable)
      · rw [cacheLookup_cacheSet_other s.cache b.contextId lid2 lid eye2 eye subw hk]
          at hsub
        exact Option.noConfusion hsub

lemma frameInv_run (b : Binding) (f lid : Nat) (eye : XREye) (L1 : LayerData)
    (sub1 : SubImage) (sid0 : Nat)
    (hstable : StableLayer L1) (hbuild0 : buildSubImage sid0 L1 eye = some sub1) :
    ∀ (reqs : List (Nat × XREye)) (s s2 : PolyfillState)
      (log : List (Except JSError SubImage)),
      FrameInv b lid eye L1 sub1 s → runRequests b f s reqs = (s2, log) →
      FrameInv b lid eye L1 sub1 s2 := by
  intro reqs
  induction reqs with
  | nil =>
    intro s s2 log hinv hrun
    unfold runRequests at hrun
    injection hrun with h1 h2
    subst h1
    exact hinv
  | cons q qs ih =>
    intro s s2 log hinv hrun
    unfold runRequests at hrun
    obtain ⟨sa, ra, hga⟩ : ∃ sa ra, getSubImage b f q.1 q.2 s = (sa, ra) := ⟨_, _, rfl⟩
    rw [hga] at hrun
    dsimp only at hrun
    obtain ⟨sb, rb, hgb⟩ : ∃ sb rb, runRequests b f sa qs = (sb, rb) := ⟨_, _, rfl⟩
    rw [hgb] at hrun
    dsimp only at hrun
    injection hrun with h1 h2
    subst h1
    exact ih sa _ rb
      (frameInv_step b f lid eye L1 sub1 sid0 hstable hbuild0 q.1 q.2 s sa ra hinv hga)
      hgb

/-- A run of requests that all use the one cached key is a run of cache hits:
it returns the cached object every time and does not change the state. -/
lemma runRequests_same_key (b : Binding) (f lid : Nat) (eye : XREye)
    (L1 : LayerData) (sub1 : SubImage) (s1 : PolyfillState)
    (hfind : findLayer s1.layers lid = some L1)
    (hgate : ¬(L1.isStatic = true ∧ L1.needsRedraw = some false))
    (hcached : cacheLookup s1.cache b.contextId lid eye = some sub1) :
    ∀ reqs : List (Nat × XREye), (∀ q ∈ reqs, q = (lid, eye)) →
      runRequests b f s1 reqs = (s1, reqs.map (fun _ => Except.ok sub1)) := by
  intro reqs
  induction reqs with
  | nil =>
    intro hall
    rfl
  | cons q qs ih =>
    intro hall
    have hq : q = (lid, eye) := hall q (List.mem_cons_self q qs)
    subst hq
    unfold runRequests
    rw [getSubImage_cache_hit b f lid eye s1 L1 sub1 hfind hgate hcached]
    dsimp only
    rw [ih (fun x hx => hall x (List.mem_cons_of_mem _ hx))]
    rfl

/-! ## Same-frame sub-image idempotence (C1) -/

/-- The sub-image the first `getSubImage` call of a frame computes for layer 1
of `exState` under eye `"none"`. -/
def c1sub1 : SubImage :=
  { sid := 100, imageIndex := some 0, colorTexture := some 10,
    depthStencilTexture := Option.none, textureWidth := some 512,
    textureHeight := some 512,
    viewport := { x := 0, y := 0, width := 512, height := 512 } }

/-- The same content recomputed as a fresh object (identity 102) after the
single-slot cache was evicted by an intervening different-key call. -/
def c1sub3 : SubImage :=
  { c1sub1 with sid := 102 }

/-- C1, counterexample to the claim as stated: within one frame, the calls
`getSubImage(layer 1, "none")`, `getSubImage(layer 2, "none")`,
`getSubImage(layer 1, "none")` on one binding return, for the repeated
(context, layer, eye) key, two distinct sub-image objects (`SubImageCache`
keeps a single live entry per context, so the second key evicted the first) —
though with identical color texture and viewport content. -/
theorem getSubImage_cache_eviction_counterexample :
    (runRequests exBinding 0 exState
        [(1, XREye.none), (2, XREye.none), (1, XREye.none)]).2.get? 0 =
      some (Except.ok c1sub1) ∧
    (runRequests exBinding 0 exState
        [(1, XREye.none), (2, XREye.none), (1, XREye.none)]).2.get? 2 =
      some (Except.ok c1sub3) ∧
    c1sub3.sameContent c1sub1 ∧ c1sub3 ≠ c1sub1 := by
  exact ⟨rfl, rfl, by decide, by decide⟩

/-- C1, amended: for every (context, layer, eye) triple requested twice
within the same frame — including frames in which `getSubImage` is also
called with other (layer, eye) keys on the same binding between the two
calls — the second call also succeeds and returns a sub-image with the same
`colorTexture` reference and identical viewport (and all other content)
as the first; it is the identical object whenever every call between the two
used the same (layer, eye) key, but an intervening different-key call evicts
the binding's single-entry cache slot and makes the second call return a
fresh, content-equal object. -/
theorem getSubImage_frame_idempotence (b : Binding) (f lid : Nat) (eye : XREye)
    (s s1 s2 s3 : PolyfillState) (sub1 : SubImage)
    (reqs : List (Nat × XREye)) (log : List (Except JSError SubImage))
    (r : Except JSError SubImage)
    (hwf : HeapWF s.layers)
    (hmiss : cacheLookup s.cache b.contextId lid eye = Option.none)
    (h1 : getSubImage b f lid eye s = (s1, Except.ok sub1))
    (hrun : runRequests b f s1 reqs = (s2, log))
    (h2 : getSubImage b f lid eye s2 = (s3, r)) :
    (∃ sub2, r = Except.ok sub2 ∧ sub2.sameContent sub1) ∧
    ((∀ q ∈ reqs, q = (lid, eye)) → r = Except.ok sub1 ∧ s3 = s2) := by
  obtain ⟨L1, hfind1, hl1lid, hstable, hwf1, hproj, hdef, hsess, hgate, hcolor,
    heye, hbuild1, hcached1⟩ :=
    getSubImage_ok_inversion b f lid eye s s1 sub1 hwf hmiss h1
  have hinv1 : FrameInv b lid eye L1 sub1 s1 := by
    refine ⟨hwf1, hfind1, ?_⟩
    intro sub hsub
    have hss : sub1 = sub := by
      have h := hcached1.symm.trans hsub
      injection h
    rw [← hss]
    exact SubImage.sameContent_refl sub1
  obtain ⟨hwf2, hfind2, hcache2⟩ :=
    frameInv_run b f lid eye L1 sub1 s.nextSubImageId hstable hbuild1 reqs s1 s2 log
      hinv1 hrun
  constructor
  · obtain hhit | ⟨csub, hhit⟩ :
        cacheLookup s2.cache b.contextId lid eye = Option.none ∨
        ∃ csub, cacheLookup s2.cache b.contextId lid eye = some csub := by
      cases cacheLookup s2.cache b.contextId lid eye
      · exact Or.inl rfl
      · exact Or.inr ⟨_, rfl⟩
    · obtain ⟨sub2, hbuild2⟩ :=
        buildSubImage_some s.nextSubImageId s2.nextSubImageId L1 eye sub1 hbuild1
      have heq := getSubImage_stable_ok b f lid eye s2 L1 sub2 hfind2 hstable hhit
        hproj hdef hsess hgate hcolor heye hbuild2
      have h := heq.symm.trans h2
      injection h with hA hB
      refine ⟨sub2, hB.symm, ?_⟩
      exact buildSubImage_content s.nextSubImageId s2.nextSubImageId L1 eye sub1 sub2
        hbuild1 hbuild2
    · have heq := getSubImage_cache_hit b f lid eye s2 L1 csub hfind2 hgate hhit
      have h := heq.symm.trans h2
      injection h with hA hB
      exact ⟨csub, hB.symm, hcache2 csub hhit⟩
  · intro hall
    have hsame := runRequests_same_key b f lid eye L1 sub1 s1 hfind1 hgate hcached1
      reqs hall
    have h12 := hsame.symm.trans hrun
    injection h12 with h12a h12b
    have hcall := getSubImage_cache_hit b f lid eye s2 L1 sub1 hfind2 hgate
      (by rw [← h12a]; exact hcached1)
    have h := hcall.symm.trans h2
    injection h with hA hB
    exact ⟨hB.symm, hA.symm⟩

/-- The heap of the two-quad fixture stores each layer under its identity. -/
lemma exLayers_wf : HeapWF exLayers := by
  intro l L h
  unfold exLayers at h
  split at h
  next h1 =>
    injection h with h
    rw [← h, h1]
    rfl
  split at h
  next h2 =>
    injection h with h
    rw [← h, h2]
    rfl
  exact Option.noConfusion h

/-- First call of the frame. -/
def c1A : PolyfillState × Except JSError SubImage :=
  getSubImage exBinding 0 1 XREye.none exState

/-- Intervening different-key call. -/
def c1B : PolyfillState × List (Except JSError SubImage) :=
  runRequests exBinding 0 c1A.1 [(2, XREye.none)]

/-- Repeated call with the first call's key. -/
def c1C : PolyfillState × Except JSError SubImage :=
  getSubImage exBinding 0 1 XREye.none c1B.1

theorem getSubImage_frame_idempotence_witness :
    ∃ sub2, c1C.2 = Except.ok sub2 ∧ sub2.sameContent c1sub1 :=
  (getSubImage_frame_idempotence exBinding 0 1 XREye.none exState c1A.1 c1B.1 c1C.1
    c1sub1 [(2, XREye.none)] c1B.2 c1C.2 exLayers_wf rfl (by rfl) rfl rfl).1

/-! ## Static layer single-draw guarantee (C5) -/

lemma foldl_runTask_options (q : List Nat) :
    ∀ (layers : Nat → Option LayerData) (lid : Nat) (L : LayerData),
      layers lid = some L →
      (q.foldl runTask layers) lid = some L ∨
      (q.foldl runTask layers) lid = some { L with needsRedraw := some false } := by
  induction q with
  | nil =>
    intro layers lid L h
    exact Or.inl h
  | cons t q ih =>
    intro layers lid L h
    simp only [List.foldl_cons]
    by_cases ht : lid = t
    · subst ht
      have h2 : (runTask layers lid) lid = some { L with needsRedraw := some false } := by
        unfold runTask
        rw [if_pos rfl, h]
        rfl
      rcases ih (runTask layers lid) lid _ h2 with h3 | h3
      · exact Or.inr h3
      · exact Or.inr h3
    · have h2 : (runTask layers t) lid = some L := by
        unfold runTask
        rw [if_neg ht]
        exact h
      exact ih (runTask layers t) lid L h2

/-- Draining a queue that ends with a task for `lid` leaves that layer with
`needsRedraw` cleared, whatever the earlier tasks did. -/
lemma foldl_runTask_append_self (q : List Nat) (layers : Nat → Option LayerData)
    (lid : Nat) (L : LayerData) (h : layers lid = some L) :
    ((q ++ [lid]).foldl runTask layers) lid =
      some { L with needsRedraw := some false } := by
  rw [List.foldl_append]
  simp only [List.foldl_cons, List.foldl_nil]
  have hself : runTask (List.foldl runTask layers q) lid lid =
      Option.map (fun l => { l with needsRedraw := some false })
        (List.foldl runTask layers q lid) := by
    unfold runTask
    rw [if_pos rfl]
  rw [hself]
  rcases foldl_runTask_options q layers lid L h with h2 | h2
  · rw [h2]
    rfl
  · rw [h2]
    rfl

/-- C5: deferred initialization turns `needsRedraw` on; on a static layer
with `needsRedraw` still set, the first `getSubImage` of the frame succeeds
and only queues the `needsRedraw` clear (the layer still has
`needsRedraw = true` right after the call, and the layer's id sits in the
session's task queue); once the end-of-frame flush has run the queued task,
`needsRedraw` is false and any further `getSubImage` fails with the
invalid-state error; after the application resets `needsRedraw = true`, the
call succeeds again. -/
theorem staticLayer_singleDraw (b : Binding) (f lid : Nat) (eye : XREye)
    (s : PolyfillState) (L : LayerData) (sub1 : SubImage)
    (hfind : findLayer s.layers lid = some L)
    (hlid : L.lid = lid)
    (hstatic : L.isStatic = true)
    (hredraw : L.needsRedraw = some true)
    (hstable : StableLayer L)
    (hmiss : cacheLookup s.cache b.contextId lid eye = Option.none)
    (hproj : ¬L.kind = LayerKind.projection)
    (hdef : ¬L.layout = XRLayerLayout.default)
    (hsess : f = L.sessionId ∧ b.sessionId = L.sessionId ∧ b.contextId = L.contextId)
    (hcolor : L.colorTextures ≠ [])
    (heye : ¬(L.layout = XRLayerLayout.stereo ∧ eye = XREye.none))
    (hbuild : buildSubImage s.nextSubImageId L eye = some sub1) :
    (∀ (n : Nat) (M M2 : LayerData), M.hasRunDeferredInitialize = false →
        initializeIfNeeded b.ctx n M = (M2, Option.none) →
        M2.needsRedraw = some true) ∧
    ∃ s1, getSubImage b f lid eye s = (s1, Except.ok sub1) ∧
      findLayer s1.layers lid = some L ∧
      lid ∈ s1.session.taskQueue ∧
      findLayer (flushTaskQueue s1).layers lid =
        some { L with needsRedraw := some false } ∧
      getSubImage b f lid eye (flushTaskQueue s1) =
        (flushTaskQueue s1,
         Except.error (JSError.error "Invalid state for subimage creation")) ∧
      getSubImage b f lid eye (resetNeedsRedraw (flushTaskQueue s1) lid) =
        (resetNeedsRedraw (flushTaskQueue s1) lid, Except.ok sub1) := by
  have hgate : ¬(L.isStatic = true ∧ L.needsRedraw = some false) := by
    rw [hredraw]
    simp
  constructor
  · intro n M M2 hrun hinit
    unfold initializeIfNeeded at hinit
    rw [if_neg (by rw [hrun]; simp : ¬M.hasRunDeferredInitialize = true)] at hinit
    dsimp only at hinit
    split at hinit
    · injection hinit with h1 h2
      exact Option.noConfusion h2
    · injection hinit with h1 h2
      rw [← h1]
  have hbase : (updateLayer s.layers L) lid = some L := by
    have h := findLayer_updateLayer_self s.layers L
    rw [hlid] at h
    exact h
  have h1 := getSubImage_stable_ok b f lid eye s L sub1 hfind hstable hmiss hproj hdef
    hsess hgate hcolor heye hbuild
  obtain ⟨s1, hs1, hlay, htq, hcacheEq⟩ :
      ∃ s1, getSubImage b f lid eye s = (s1, Except.ok sub1) ∧
        s1.layers = updateLayer s.layers L ∧
        s1.session.taskQueue = s.session.taskQueue ++ [lid] ∧
        s1.cache = cacheSet s.cache b.contextId lid eye sub1 :=
    ⟨_, h1, rfl, rfl, rfl⟩
  have hfindF : findLayer (flushTaskQueue s1).layers lid =
      some { L with needsRedraw := some false } := by
    show (s1.session.taskQueue.foldl runTask s1.layers) lid = _
    rw [htq, hlay]
    exact foldl_runTask_append_self s.session.taskQueue (updateLayer s.layers L)
      lid L hbase
  refine ⟨s1, hs1, ?_, ?_, hfindF, ?_, ?_⟩
  · rw [hlay]
    have h := findLayer_updateLayer_self s.layers L
    rw [hlid] at h
    exact h
  · rw [htq]
    exact List.mem_append_right _ (List.mem_singleton.mpr rfl)
  · unfold getSubImage
    rw [hfindF]
    dsimp only
    rw [if_pos ⟨hstatic, rfl⟩]
  · have hfindR : findLayer (resetNeedsRedraw (flushTaskQueue s1) lid).layers lid =
        some { L with needsRedraw := some true } := by
      show setNeedsRedrawTrue (flushTaskQueue s1).layers lid lid = _
      unfold setNeedsRedrawTrue
      rw [if_pos rfl]
      have hF : (flushTaskQueue s1).layers lid =
          some { L with needsRedraw := some false } := hfindF
      rw [hF]
      rfl
    exact getSubImage_cache_hit b f lid eye _ { L with needsRedraw := some true } sub1
      hfindR (by intro hc; have h := hc.2; simp at h) (by
        show cacheLookup s1.cache b.contextId lid eye = some sub1
        rw [hcacheEq]
        exact cacheLookup_cacheSet_same _ _ _ _ _)

/-- The allocated 512×512 mono quad of the fixtures, created static. -/
def exStaticQuad : LayerData :=
  { exQuad 1 10 with isStatic := true }

/-- A heap holding only the static quad. -/
def exStaticLayers : Nat → Option LayerData :=
  fun lid => if lid = 1 then some exStaticQuad else Option.none

/-- The fixture state over the static quad. -/
def exStaticState : PolyfillState :=
  { session := exSession, layers := exStaticLayers, cache := [],
    viewCache := [], nextSubImageId := 100, nextTextureId := 50 }

theorem staticLayer_singleDraw_witness :
    ∃ s1, getSubImage exBinding 0 1 XREye.none exStaticState = (s1, Except.ok c1sub1) ∧
      findLayer s1.layers 1 = some exStaticQuad ∧
      1 ∈ s1.session.taskQueue ∧
      findLayer (flushTaskQueue s1).layers 1 =
        some { exStaticQuad with needsRedraw := some false } ∧
      getSubImage exBinding 0 1 XREye.none (flushTaskQueue s1) =
        (flushTaskQueue s1,
         Except.error (JSError.error "Invalid state for subimage creation")) ∧
      getSubImage exBinding 0 1 XREye.none (resetNeedsRedraw (flushTaskQueue s1) 1) =
        (resetNeedsRedraw (flushTaskQueue s1) 1, Except.ok c1sub1) :=
  (staticLayer_singleDraw exBinding 0 1 XREye.none exStaticState exStaticQuad c1sub1
    rfl rfl rfl rfl (Or.inr ⟨rfl, by decide, Or.inl rfl⟩) rfl (by decide) (by decide)
    ⟨rfl, rfl, rfl⟩ (by decide) (by decide) (by decide)).2

end WebXRLayers
